import Mathlib

/-!
Shallow embedding of the antibot backend (src/app.py) and verification of the
specification claims.

Modelling conventions:
* sqlite tables are lists of row structures inside a `DB` record; SQL
  `SELECT ... WHERE` is `List.filter`/`List.find?`, `INSERT` is a list append,
  `UPDATE ... WHERE` is a `List.map` that rewrites the matching rows, and
  `INSERT OR REPLACE` removes the row with the same primary key and appends
  the new one.
* `datetime.now` / `time.time()` are a single explicit `now : Nat` parameter;
  timestamps are stored as naturals (seconds).
* Python's `str.strip()` / slicing `[:n]` are `pyStrip` / `pyTake`; `str.replace`
  for the two-character pattern "++" is `replacePP` (left-to-right,
  non-overlapping, exactly Python's semantics for this pattern).
* random values (`secrets.randbelow`, `secrets.token_urlsafe`) are explicit
  parameters of the operations that draw them.
* each HTTP handler opens a sqlite connection, executes statements and only
  `commit`s at the points the source does; when `HTTPException` is raised the
  connection is closed in a `finally:` block without a commit, so the pending
  transaction is rolled back.  Handlers are therefore modelled as functions
  `DB → args → DB × Except Err resp` whose error arm returns the *input* DB
  unchanged.
-/

namespace Antibot

/-- Python `str.strip()`: drop whitespace from both ends. -/
def pyStrip (s : String) : String :=
  String.mk (((s.data.dropWhile Char.isWhitespace).reverse.dropWhile Char.isWhitespace).reverse)

/-- Python slicing `s[:n]`. -/
def pyTake (s : String) (n : Nat) : String :=
  String.mk (s.data.take n)

/-- Python truthiness of an optional string (`None` and `""` are falsy). -/
def truthy : Option String → Bool
  | none => false
  | some s => s ≠ ""

/-- Characters kept by the first filter in `norm_phone`: digits and `+`. -/
def phone_keep (c : Char) : Bool := c.isDigit || c == '+'

/-- Python `s.replace("++", "+")`: scan left to right, replacing
non-overlapping occurrences of `++` by `+`. -/
def replacePP : List Char → List Char
  | [] => []
  | [c] => [c]
  | c1 :: c2 :: rest =>
    if c1 = '+' ∧ c2 = '+' then '+' :: replacePP rest
    else c1 :: replacePP (c2 :: rest)

/-- `norm_phone` from src/app.py: keep digits and `+`, collapse `++` once,
then apply the RU-specific branches.  `None`/`""` inputs give `None`. -/
def norm_phone : Option String → Option String
  | none => none
  | some p =>
    if p = "" then none
    else
      let s := replacePP (p.data.filter phone_keep)
      let digits := s.filter Char.isDigit
      if digits.head? = some '8' ∧ digits.length = 11 then
        some (String.mk ('+' :: '7' :: digits.tail))
      else if digits.head? = some '7' ∧ digits.length = 11 then
        some (String.mk ('+' :: '7' :: digits.tail))
      else if s.head? = some '+' ∧ 10 ≤ digits.length then
        some (String.mk ('+' :: digits))
      else if 10 ≤ digits.length then
        some (String.mk ('+' :: digits))
      else some (String.mk s)

/-! ## Data model: one structure per sqlite table row (init_db) -/

/-- Row of the `leads` table (the autoincrement id is not modelled; rows are
identified by their position in the list). -/
structure Lead where
  ts : Nat
  site : String
  vid : String
  ip : String
  ua : String
  name : String
  phone : Option String
  email : String
  form_action : String
  form_id : String
deriving DecidableEq

/-- Row of the `events` table (the write-only `payload_json` blob is dropped). -/
structure EventRow where
  ts : Nat
  site : String
  vid : String
  ip : String
  ua : String
  path : Option String
  ref : Option String
  kind : String
deriving DecidableEq

/-- Row of the `visitors` table.  `interaction_json` is modelled as an
association list (a JSON object of numeric fields), `last_reasons_json`
directly as the list of reason tags. -/
structure Visitor where
  vid : String
  site : String
  first_ts : Nat
  last_ts : Nat
  last_ip : String
  last_ua : String
  last_path : Option String
  interaction : List (String × Int)
  last_score : Nat
  last_reasons : List String
  captcha_required : Bool
  suspicious : Bool
  blocked : Bool
  lead_count : Nat
  last_phone : Option String
  last_name : Option String
deriving DecidableEq

/-- Row of the `blocked_phones` table (primary key `phone`). -/
structure BlockedPhone where
  phone : String
  ts : Nat
  reason : String
deriving DecidableEq

/-- Row of the `blocked_vids` table (primary key `vid`). -/
structure BlockedVid where
  vid : String
  ts : Nat
  reason : String
  phone : Option String
deriving DecidableEq

/-- Row of the `alerts` table. -/
structure Alert where
  ts : Nat
  site : String
  vid : String
  phone : Option String
  name : String
  score : Nat
  reasons : List String
deriving DecidableEq

/-- Row of the `captcha_challenges` table.  Note the schema stores the
answer itself (`answer TEXT NOT NULL`), not a commitment. -/
structure Captcha where
  id : String
  ts : Nat
  vid : String
  site : String
  question : String
  answer : String
deriving DecidableEq

/-- The whole sqlite database. -/
structure DB where
  leads : List Lead
  events : List EventRow
  visitors : List Visitor
  blocked_phones : List BlockedPhone
  blocked_vids : List BlockedVid
  alerts : List Alert
  captchas : List Captcha
deriving DecidableEq

/-- The empty database, as produced by `init_db`. -/
def DB.empty : DB := ⟨[], [], [], [], [], [], []⟩

instance {ε α : Type} [DecidableEq ε] [DecidableEq α] : DecidableEq (Except ε α) := fun x y =>
  match x, y with
  | .ok a, .ok b => decidable_of_iff (a = b) (by simp)
  | .error e, .error f => decidable_of_iff (e = f) (by simp)
  | .ok _, .error _ => isFalse (by simp)
  | .error _, .ok _ => isFalse (by simp)

/-! ## Configuration defaults (module-level constants in src/app.py) -/

def CAPTCHA_TTL_SEC : Nat := 600
def CAPTCHA_SCORE_THRESHOLD : Nat := 40
def ALERT_SCORE_THRESHOLD : Nat := 60

/-! ## Store primitives -/

/-- `get_visitor`: `SELECT * FROM visitors WHERE site=? AND vid=?`. -/
def get_visitor (db : DB) (site vid : String) : Option Visitor :=
  db.visitors.find? (fun v => v.site == site && v.vid == vid)

/-- Python `dict.update` on the parsed `interaction_json`: keys present in
`new` overwrite `old`, unknown keys are appended. -/
def dictUpdate (old new : List (String × Int)) : List (String × Int) :=
  new.foldl (fun acc kv =>
    if acc.any (fun e => e.1 == kv.1) then
      acc.map (fun e => if e.1 == kv.1 then kv else e)
    else acc ++ [kv]) old

/-- `interaction.get(k) or 0` coerced to an integer. -/
def iget (d : List (String × Int)) (k : String) : Int :=
  (d.lookup k).getD 0

/-- `upsert_visitor` from src/app.py. -/
def upsert_visitor (db : DB) (site vid ip ua : String) (path : Option String)
    (interaction : List (String × Int)) (now : Nat) : DB :=
  match get_visitor db site vid with
  | none =>
      { db with visitors := db.visitors ++
          [{ vid := vid, site := site, first_ts := now, last_ts := now,
             last_ip := ip, last_ua := ua, last_path := path,
             interaction := interaction, last_score := 0, last_reasons := [],
             captcha_required := false, suspicious := false, blocked := false,
             lead_count := 0, last_phone := none, last_name := none }] }
  | some _ =>
      { db with visitors := db.visitors.map (fun v =>
          if v.site == site && v.vid == vid then
            { v with last_ts := now, last_ip := ip, last_ua := ua,
                     last_path := path,
                     interaction := dictUpdate v.interaction interaction }
          else v) }

/-- `is_blocked` from src/app.py: vid block first, then (if the phone is
truthy) phone block. -/
def is_blocked (db : DB) (vid : String) (phone : Option String) : Bool :=
  db.blocked_vids.any (fun e => e.vid == vid) ||
    (truthy phone && db.blocked_phones.any (fun e => e.phone == phone.getD ""))

/-- Aggregate returned by `lead_history_stats`. -/
structure Hist where
  vid_count : Nat
  distinct_phones : Nat
  distinct_names : Nat
  phone_count : Nat
deriving DecidableEq

/-- `lead_history_stats` from src/app.py.  Note: the queries carry **no time
window** — they range over the full `leads` table. -/
def lead_history_stats (db : DB) (site vid : String) (phone : Option String) : Hist :=
  let mine := db.leads.filter (fun l => l.site == site && l.vid == vid)
  { vid_count := mine.length
    distinct_phones := ((mine.map (fun l => l.phone.getD "")).dedup).length
    distinct_names := ((mine.map (fun l => l.name)).dedup).length
    phone_count :=
      match phone with
      | none => 0
      | some ph =>
          if ph = "" then 0
          else (db.leads.filter (fun l => l.site == site && l.phone == some ph)).length }

/-- The lead fields handed to `score_suspicion` (`{"name":…, "phone":…, "email":…}`). -/
structure ScoreLead where
  name : String
  phone : Option String
  email : String
deriving DecidableEq

/-- One `score += w; reasons.append(tag)` step of `score_suspicion`. -/
def addSignal (cond : Bool) (w : Nat) (tag : String) (acc : Nat × List String) :
    Nat × List String :=
  if cond then (acc.1 + w, acc.2 ++ [tag]) else acc

/-- `score_suspicion` from src/app.py.  Returns
`(score, reasons, captcha_required, suspicious_alert)`. -/
def score_suspicion (site vid : String) (interaction : List (String × Int))
    (history : Hist) (lead : Option ScoreLead) : Nat × List String × Bool × Bool :=
  let dur := iget interaction "duration_ms"
  let moves := iget interaction "mouse_moves"
  let scrolls := iget interaction "scrolls"
  let keys := iget interaction "keydowns"
  let acc : Nat × List String := (0, [])
  let acc := addSignal (dur != 0 && decide (dur < 4000)) 25 "fast_submit(<4s)" acc
  let acc := addSignal (decide (moves + scrolls + keys < 3)) 25 "low_interaction" acc
  let acc := addSignal (decide (2 ≤ history.vid_count)) 60 "repeat_leads_same_vid(>=2)" acc
  let acc := addSignal (decide (2 ≤ history.distinct_phones)) 60 "different_phones_same_vid" acc
  let acc := addSignal (decide (2 ≤ history.distinct_names)) 30 "different_names_same_vid" acc
  let acc := addSignal (decide (2 ≤ history.phone_count)) 40 "repeat_leads_same_phone(>=2)" acc
  let acc :=
    match lead with
    | none => acc
    | some L =>
        let nm := pyStrip L.name
        let ph := pyStrip (L.phone.getD "")
        let acc := addSignal (ph != "" && decide (ph.length < 10)) 10 "short_phone" acc
        addSignal (nm != "" && decide (nm.length < 2)) 10 "short_name" acc
  (acc.1, acc.2, decide (CAPTCHA_SCORE_THRESHOLD ≤ acc.1),
    decide (ALERT_SCORE_THRESHOLD ≤ acc.1))

/-- `create_alert` from src/app.py: unconditional `INSERT INTO alerts`. -/
def create_alert (db : DB) (site vid : String) (phone : Option String) (name : String)
    (score : Nat) (reasons : List String) (now : Nat) : DB :=
  { db with alerts := db.alerts ++
      [{ ts := now, site := site, vid := vid, phone := phone, name := name,
         score := score, reasons := reasons }] }

/-! ## The /collect pipeline -/

/-- `captcha` payload of a collect request. -/
structure CaptchaIn where
  id : Option String
  answer : Option String
deriving DecidableEq

/-- `lead` payload of a collect request. -/
structure LeadIn where
  name : Option String
  phone : Option String
  email : Option String
  form_action : Option String
  form_id : Option String
deriving DecidableEq

/-- The `CollectIn` pydantic model. -/
structure CollectIn where
  site : String
  vid : String
  path : Option String
  ref : Option String
  kind : String
  interaction : Option (List (String × Int))
  lead : Option LeadIn
  captcha : Option CaptchaIn
deriving DecidableEq

/-- HTTP error responses raised by the handlers. -/
inductive Err where
  | badRequest (detail : String)
  | forbidden (detail : String)
deriving DecidableEq

/-- Success body of /collect (`{"ok": true}`). -/
structure CollectResp where
  ok : Bool
deriving DecidableEq

/-- The inline captcha verification of /collect (src/app.py lines 439-451):
look the challenge up by id, check its TTL, its (vid, site) binding and the
answer; there is no consumed flag and the row is not modified. -/
def captcha_check (captchas : List Captcha) (cap : CaptchaIn) (site vid : String)
    (now : Nat) : Bool :=
  let cid := pyStrip (cap.id.getD "")
  let ans := pyStrip (cap.answer.getD "")
  if cid != "" && ans != "" then
    match captchas.find? (fun ch => ch.id == cid) with
    | some ch =>
        if (now : Int) - (ch.ts : Int) ≤ (CAPTCHA_TTL_SEC : Int) then
          if ch.vid == vid && ch.site == site && pyStrip ch.answer == pyStrip ans then
            true
          else false
        else false
    | none => false
  else false

/-- Steps of the accepted-lead branch of /collect that write the lead row and
bump the visitor's lead counter (src/app.py lines 456-470). -/
def lead_insert (db : DB) (site vid ip ua name : String) (phone : Option String)
    (email form_action form_id : String) (now : Nat) : DB :=
  let db : DB := { db with leads := db.leads ++
      [{ ts := now, site := site, vid := vid, ip := ip, ua := ua, name := name,
         phone := phone, email := email, form_action := form_action,
         form_id := form_id }] }
  { db with visitors := db.visitors.map (fun v =>
      if v.site == site && v.vid == vid then
        { v with lead_count := v.lead_count + 1, last_phone := phone,
                 last_name := some name }
      else v) }

/-- The re-read of the visitor row's merged interaction JSON
(src/app.py lines 473-478). -/
def visitor_interaction (db : DB) (site vid : String) : List (String × Int) :=
  match get_visitor db site vid with
  | some v => v.interaction
  | none => []

/-- Steps of the accepted-lead branch of /collect that recompute the risk,
store it on the visitor row and possibly create an alert
(src/app.py lines 472-498). -/
def lead_rescore (db : DB) (site vid name : String) (phone : Option String)
    (email : String) (now : Nat) : DB :=
  let interaction := visitor_interaction db site vid
  let history := lead_history_stats db site vid phone
  let r := score_suspicion site vid interaction history (some ⟨name, phone, email⟩)
  let score := r.1
  let reasons := r.2.1
  let cap_req := r.2.2.1
  let susp := r.2.2.2
  let blocked := is_blocked db vid phone
  let db : DB := { db with visitors := db.visitors.map (fun v =>
      if v.site == site && v.vid == vid then
        { v with last_score := score, last_reasons := reasons,
                 captcha_required := cap_req, suspicious := susp,
                 blocked := blocked }
      else v) }
  if susp then create_alert db site vid phone name score reasons now else db

/-- The whole accepted-lead branch of /collect. -/
def lead_accept (db : DB) (site vid ip ua name : String) (phone : Option String)
    (email form_action form_id : String) (now : Nat) : DB :=
  lead_rescore (lead_insert db site vid ip ua name phone email form_action form_id now)
    site vid name phone email now

/-- The `need_captcha` read of /collect: the `captcha_required` flag of the
visitor row, if it exists (src/app.py lines 436-437). -/
def collect_need_captcha (db : DB) (site vid : String) : Bool :=
  match get_visitor db site vid with
  | some v => v.captcha_required
  | none => false

/-- The /collect handler.  The error arm returns the input DB: the handler
raises before its first `commit`, and closing the connection in `finally:`
rolls the open transaction back. -/
def collect (db0 : DB) (p : CollectIn) (ip ua : String) (now : Nat) :
    DB × Except Err CollectResp :=
  let site := pyTake (pyStrip p.site) 200
  let vid := pyTake (pyStrip p.vid) 200
  if site = "" ∨ vid = "" then
    (db0, .error (.badRequest "site and vid are required"))
  else
    let db := upsert_visitor db0 site vid ip ua p.path (p.interaction.getD []) now
    let db : DB :=
      if p.kind = "event" ∨ p.kind = "heartbeat" then
        { db with events := db.events ++
            [{ ts := now, site := site, vid := vid, ip := ip, ua := ua,
               path := p.path, ref := p.ref, kind := p.kind }] }
      else db
    if p.kind = "lead" then
      let leadD := p.lead.getD ⟨none, none, none, none, none⟩
      let name := pyStrip (leadD.name.getD "")
      let phone := norm_phone leadD.phone
      let email := pyStrip (leadD.email.getD "")
      let form_action := pyStrip (leadD.form_action.getD "")
      let form_id := pyStrip (leadD.form_id.getD "")
      let need_captcha := collect_need_captcha db site vid
      let captcha_ok :=
        if need_captcha then
          captcha_check db.captchas (p.captcha.getD ⟨none, none⟩) site vid now
        else true
      if need_captcha && !captcha_ok then
        (db0, .error (.forbidden "captcha_required"))
      else
        (lead_accept db site vid ip ua name phone email form_action form_id now,
         .ok ⟨true⟩)
    else (db, .ok ⟨true⟩)

/-! ## The /risk, /captcha/new and /admin/block_phone handlers -/

/-- Response body of /risk. -/
structure RiskResp where
  blocked : Bool
  suspicious : Bool
  captcha_required : Bool
  score : Nat
  reasons : List String
  hist_count : Nat
  hist_distinct_phones : Nat
  hist_distinct_names : Nat
deriving DecidableEq

/-- The /risk handler (read-only). -/
def risk (db : DB) (site0 vid0 : String) : Except Err RiskResp :=
  let site := pyTake (pyStrip site0) 200
  let vid := pyTake (pyStrip vid0) 200
  if site = "" ∨ vid = "" then
    .error (.badRequest "site and vid are required")
  else
    match get_visitor db site vid with
    | none => .ok ⟨false, false, false, 0, [], 0, 0, 0⟩
    | some v =>
        let blocked := is_blocked db vid v.last_phone
        let mine := db.leads.filter (fun l => l.site == site && l.vid == vid)
        .ok ⟨blocked, v.suspicious, v.captcha_required, v.last_score, v.last_reasons,
             mine.length, ((mine.map (fun l => l.phone.getD "")).dedup).length,
             ((mine.map (fun l => l.name)).dedup).length⟩

/-- The /captcha/new handler.  The random operands `a`, `b` (drawn from
`secrets.randbelow(8) + 2`, i.e. 2..9) and the random token `cid` are
explicit parameters.  Note the row stores `str(a+b)` — the plaintext
answer — in the `answer` column. -/
def captcha_new (db : DB) (site0 vid0 : String) (a b : Nat) (cid : String) (now : Nat) :
    DB × Except Err (String × String) :=
  let site := pyTake (pyStrip site0) 200
  let vid := pyTake (pyStrip vid0) 200
  if site = "" ∨ vid = "" then
    (db, .error (.badRequest "site and vid are required"))
  else
    let q := "Сколько будет " ++ toString a ++ "+" ++ toString b ++ "?"
    let ans := toString (a + b)
    ({ db with captchas := db.captchas ++
        [{ id := cid, ts := now, vid := vid, site := site, question := q,
           answer := ans }] },
     .ok (cid, q))

/-- One iteration of the propagation loop of /admin/block_phone: upsert a
derived `blocked_vids` row for `v` and set `blocked=1` on every visitor row
with that vid (across all sites). -/
def block_vid_step (ph reason : String) (now : Nat) (d : DB) (v : String) : DB :=
  { d with
    blocked_vids := (d.blocked_vids.filter (fun e => e.vid ≠ v)) ++
      [{ vid := v, ts := now, reason := reason, phone := some ph }],
    visitors := d.visitors.map (fun w => if w.vid == v then { w with blocked := true } else w) }

/-- The reason string stored by /admin/block_phone:
`(data.reason or "").strip()[:300] or "blocked via tg"`. -/
def admin_reason (reasonIn : Option String) : String :=
  let r := pyTake (pyStrip (reasonIn.getD "")) 300
  if r = "" then "blocked via tg" else r

/-- The /admin/block_phone handler (after admin-token authentication). -/
def admin_block_phone (db : DB) (phoneIn : String) (reasonIn : Option String)
    (now : Nat) : DB × Except Err (String × List String) :=
  match norm_phone (some phoneIn) with
  | none => (db, .error (.badRequest "bad phone"))
  | some ph =>
    if ph = "" then (db, .error (.badRequest "bad phone"))
    else
      let reason := admin_reason reasonIn
      let db1 := { db with blocked_phones :=
          (db.blocked_phones.filter (fun e => e.phone ≠ ph)) ++
            [{ phone := ph, ts := now, reason := reason }] }
      let vids := ((db1.leads.filter (fun l => l.phone == some ph)).map (fun l => l.vid)).dedup
      (vids.foldl (block_vid_step ph reason now) db1, .ok (ph, vids))

/-! ## Claim-side definitions -/

/-- Weight attached to each reason tag by `score_suspicion`. -/
def tag_weight : String → Nat
  | "fast_submit(<4s)" => 25
  | "low_interaction" => 25
  | "repeat_leads_same_vid(>=2)" => 60
  | "different_phones_same_vid" => 60
  | "different_names_same_vid" => 30
  | "repeat_leads_same_phone(>=2)" => 40
  | "short_phone" => 10
  | "short_name" => 10
  | _ => 0

/-- The repeat-submission reason tags of `score_suspicion`. -/
def repeat_tags : List String :=
  ["repeat_leads_same_vid(>=2)", "different_phones_same_vid",
   "different_names_same_vid", "repeat_leads_same_phone(>=2)"]

/-- Modelled from the spec: a timestamp lies inside the rolling window
(default 24h = 86400s) ending at `now`.  The source has no such notion —
this definition exists only to state the window clause of C7. -/
def in_window (now ts : Nat) : Bool :=
  now ≤ ts + 86400

/-! ## Lemmas about `replacePP` and `norm_phone` -/

/-- The list contains two adjacent `+` characters. -/
def hasPP : List Char → Bool
  | c1 :: c2 :: rest => (c1 == '+' && c2 == '+') || hasPP (c2 :: rest)
  | _ => false

/-- The list contains three adjacent `+` characters. -/
def hasPPP : List Char → Bool
  | c1 :: c2 :: c3 :: rest => (c1 == '+' && c2 == '+' && c3 == '+') || hasPPP (c2 :: c3 :: rest)
  | _ => false

theorem hasPP_tail {c : Char} {l : List Char} (h : hasPP (c :: l) = false) :
    hasPP l = false := by
  match l with
  | [] => rfl
  | a :: t =>
      rw [hasPP] at h
      exact (Bool.or_eq_false_iff.mp h).2

theorem hasPPP_tail {c : Char} {l : List Char} (h : hasPPP (c :: l) = false) :
    hasPPP l = false := by
  match l with
  | [] => rfl
  | [a] => rfl
  | a :: b :: t =>
      rw [hasPPP] at h
      exact (Bool.or_eq_false_iff.mp h).2

theorem digit_ne_plus {c : Char} (h : c.isDigit = true) : (c == '+') = false := by
  cases hb : c == '+' with
  | false => rfl
  | true =>
      have : c = '+' := by exact eq_of_beq hb
      subst this
      simp at h

theorem hasPP_no_plus : ∀ (l : List Char), (∀ c ∈ l, (c == '+') = false) → hasPP l = false
  | [], _ => rfl
  | [_], _ => rfl
  | c1 :: c2 :: rest, h => by
      rw [hasPP]
      have h1 : (c1 == '+') = false := h c1 (by simp)
      have h2 : hasPP (c2 :: rest) = false :=
        hasPP_no_plus (c2 :: rest) (fun d hd => h d (List.mem_cons_of_mem c1 hd))
      simp [h1, h2]

theorem head?_replacePP : ∀ (l : List Char), (replacePP l).head? = l.head?
  | [] => rfl
  | [_] => rfl
  | c1 :: c2 :: rest => by
      rw [replacePP]
      split
      · next h => simp [h.1]
      · simp

theorem replacePP_ne_nil : ∀ (l : List Char), l ≠ [] → replacePP l ≠ []
  | [], h => absurd rfl h
  | [c], _ => by simp [replacePP]
  | c1 :: c2 :: rest, _ => by
      rw [replacePP]
      split <;> simp

theorem replacePP_all {p : Char → Bool} (hp : p '+' = true) :
    ∀ (l : List Char), (∀ c ∈ l, p c = true) → ∀ c ∈ replacePP l, p c = true
  | [], _ => by simp [replacePP]
  | [a], h => by
      have ha : replacePP [a] = [a] := rfl
      rw [ha]
      exact h
  | c1 :: c2 :: rest, h => by
      rw [replacePP]
      split
      · intro c hc
        rcases List.mem_cons.mp hc with rfl | hc
        · exact hp
        · exact replacePP_all hp rest
            (fun d hd => h d (List.mem_cons_of_mem c1 (List.mem_cons_of_mem c2 hd))) c hc
      · intro c hc
        rcases List.mem_cons.mp hc with rfl | hc
        · exact h c (by simp)
        · exact replacePP_all hp (c2 :: rest)
            (fun d hd => h d (List.mem_cons_of_mem c1 hd)) c hc

theorem hasPP_cons_eq (c : Char) (X : List Char) :
    hasPP (c :: X) =
      (match X.head? with
       | some d => (c == '+' && d == '+') || hasPP X
       | none => false) := by
  cases X with
  | nil => rfl
  | cons d t => rfl

theorem noPP_replacePP : ∀ (l : List Char), hasPPP l = false → hasPP (replacePP l) = false
  | [], _ => rfl
  | [_], _ => rfl
  | [c1, c2], h => by
      rw [replacePP]
      split
      · rfl
      · next hpp =>
          rw [replacePP, hasPP]
          rcases not_and_or.mp hpp with h1 | h1 <;>
            simp [beq_eq_false_iff_ne.mpr h1, hasPP]
  | c1 :: c2 :: c3 :: rest, h => by
      have htail : hasPPP (c2 :: c3 :: rest) = false := hasPPP_tail h
      rw [replacePP]
      split
      · next hpp =>
          obtain ⟨rfl, rfl⟩ := hpp
          -- from no `+++`: c3 ≠ '+'
          rw [hasPPP] at h
          obtain ⟨hand, -⟩ := Bool.or_eq_false_iff.mp h
          have hc3 : (c3 == '+') = false := by simpa using hand
          have ih : hasPP (replacePP (c3 :: rest)) = false :=
            noPP_replacePP (c3 :: rest) (hasPPP_tail htail)
          rw [hasPP_cons_eq, head?_replacePP]
          cases hr : (c3 :: rest).head? with
          | none => rfl
          | some d =>
              have : d = c3 := by
                simpa using hr.symm
              subst this
              simp [hc3, ih]
      · next hpp =>
          have ih : hasPP (replacePP (c2 :: c3 :: rest)) = false :=
            noPP_replacePP (c2 :: c3 :: rest) htail
          rw [hasPP_cons_eq, head?_replacePP]
          simp only [List.head?]
          rcases not_and_or.mp hpp with h1 | h1
          · simp [beq_eq_false_iff_ne.mpr h1, ih]
          · simp [beq_eq_false_iff_ne.mpr h1, ih]

theorem replacePP_of_noPP : ∀ (l : List Char), hasPP l = false → replacePP l = l
  | [], _ => rfl
  | [_], _ => rfl
  | c1 :: c2 :: rest, h => by
      rw [replacePP]
      split
      · next hpp =>
          rw [hasPP] at h
          simp [hpp.1, hpp.2] at h
      · rw [replacePP_of_noPP (c2 :: rest) (hasPP_tail h)]

/-- Second application of `norm_phone` to a result list without adjacent
plus signs: the first filter and the `replace("++","+")` are the identity,
so only the branch selection remains. -/
theorem norm_phone_clean (l : List Char) (hne : l ≠ [])
    (hkeep : ∀ c ∈ l, phone_keep c = true)
    (hnoPP : hasPP l = false) :
    norm_phone (some (String.mk l)) =
      (let digits := l.filter Char.isDigit
       if digits.head? = some '8' ∧ digits.length = 11 then
         some (String.mk ('+' :: '7' :: digits.tail))
       else if digits.head? = some '7' ∧ digits.length = 11 then
         some (String.mk ('+' :: '7' :: digits.tail))
       else if l.head? = some '+' ∧ 10 ≤ digits.length then
         some (String.mk ('+' :: digits))
       else if 10 ≤ digits.length then
         some (String.mk ('+' :: digits))
       else some (String.mk l)) := by
  have hne' : String.mk l ≠ "" := by
    intro he
    exact hne (by simpa using congrArg String.data he)
  rw [norm_phone, if_neg hne']
  have hdata : (String.mk l).data = l := rfl
  rw [hdata, List.filter_eq_self.mpr hkeep, replacePP_of_noPP l hnoPP]

/-- Unfolding of `norm_phone` on a non-empty string, with the Python local
variables `s` and `digits` expanded. -/
theorem norm_phone_some_eq (p : String) (hp : p ≠ "") :
    norm_phone (some p) =
      (if ((replacePP (p.data.filter phone_keep)).filter Char.isDigit).head? = some '8' ∧
          ((replacePP (p.data.filter phone_keep)).filter Char.isDigit).length = 11 then
        some (String.mk ('+' :: '7' ::
          ((replacePP (p.data.filter phone_keep)).filter Char.isDigit).tail))
      else if ((replacePP (p.data.filter phone_keep)).filter Char.isDigit).head? = some '7' ∧
          ((replacePP (p.data.filter phone_keep)).filter Char.isDigit).length = 11 then
        some (String.mk ('+' :: '7' ::
          ((replacePP (p.data.filter phone_keep)).filter Char.isDigit).tail))
      else if (replacePP (p.data.filter phone_keep)).head? = some '+' ∧
          10 ≤ ((replacePP (p.data.filter phone_keep)).filter Char.isDigit).length then
        some (String.mk ('+' :: (replacePP (p.data.filter phone_keep)).filter Char.isDigit))
      else if 10 ≤ ((replacePP (p.data.filter phone_keep)).filter Char.isDigit).length then
        some (String.mk ('+' :: (replacePP (p.data.filter phone_keep)).filter Char.isDigit))
      else some (String.mk (replacePP (p.data.filter phone_keep)))) := by
  rw [norm_phone, if_neg hp]

/-- C8 (amended): `norm_phone` is idempotent on every input that keeps at
least one digit-or-plus character and contains no three consecutive plus
signs among them. -/
theorem C8_amended_idempotent (p : String)
    (h1 : p.data.filter phone_keep ≠ [])
    (h2 : hasPPP (p.data.filter phone_keep) = false) :
    norm_phone (norm_phone (some p)) = norm_phone (some p) := by
  have hpne : p ≠ "" := by
    intro he
    subst he
    exact h1 rfl
  rw [norm_phone_some_eq p hpne]
  set f := p.data.filter phone_keep with hf
  set s := replacePP f with hs
  set digits := s.filter Char.isDigit with hdg
  have hkeepf : ∀ c ∈ f, phone_keep c = true := fun c hc => List.of_mem_filter hc
  have hplus : phone_keep '+' = true := by decide
  have hkeeps : ∀ c ∈ s, phone_keep c = true := fun c hc =>
    replacePP_all hplus f hkeepf c (hs ▸ hc)
  have hdig : ∀ c ∈ digits, c.isDigit = true := fun c hc => List.of_mem_filter (hdg ▸ hc)
  have hnoplus : ∀ c ∈ digits, (c == '+') = false := fun c hc => digit_ne_plus (hdig c hc)
  have hnoPPs : hasPP s = false := hs ▸ noPP_replacePP f h2
  have hsne : s ≠ [] := hs ▸ replacePP_ne_nil f h1
  split_ifs with hb1 hb2 hb3 hb4
  · -- branch: digits starts with '8' and has 11 digits
    obtain ⟨hh, hlen⟩ := hb1
    obtain ⟨t, ht⟩ : ∃ t, digits = '8' :: t := by
      cases hdx : digits with
      | nil => rw [hdx] at hh; simp at hh
      | cons d t =>
          rw [hdx] at hh
          have hd8 : d = '8' := by simpa using hh
          exact ⟨t, by rw [hd8]⟩
    have htd : ∀ c ∈ t, c.isDigit = true := fun c hc =>
      hdig c (ht ▸ List.mem_cons_of_mem '8' hc)
    have htlen : t.length = 10 := by
      have := hlen
      rw [ht] at this
      simpa using this
    rw [ht]
    show norm_phone (some (String.mk ('+' :: '7' :: ('8' :: t).tail))) =
      some (String.mk ('+' :: '7' :: ('8' :: t).tail))
    have htail : ('8' :: t).tail = t := rfl
    rw [htail]
    rw [norm_phone_clean ('+' :: '7' :: t) (by simp)
      (by
        intro c hc
        rcases List.mem_cons.mp hc with rfl | hc
        · decide
        rcases List.mem_cons.mp hc with rfl | hc
        · decide
        · simp [phone_keep, htd c hc])
      (by
        rw [hasPP]
        have h7 : hasPP ('7' :: t) = false := hasPP_no_plus ('7' :: t) (by
          intro c hc
          rcases List.mem_cons.mp hc with rfl | hc
          · decide
          · exact digit_ne_plus (htd c hc))
        simp [h7])]
    have hfil : ('+' :: '7' :: t).filter Char.isDigit = '7' :: t := by
      rw [List.filter_cons_of_neg (by decide), List.filter_cons_of_pos (by decide),
        List.filter_eq_self.mpr htd]
    rw [hfil]
    rw [if_neg (by simp), if_pos (by simp [htlen])]
    rfl
  · -- branch: digits starts with '7' and has 11 digits
    obtain ⟨hh, hlen⟩ := hb2
    obtain ⟨t, ht⟩ : ∃ t, digits = '7' :: t := by
      cases hdx : digits with
      | nil => rw [hdx] at hh; simp at hh
      | cons d t =>
          rw [hdx] at hh
          have hd7 : d = '7' := by simpa using hh
          exact ⟨t, by rw [hd7]⟩
    have htd : ∀ c ∈ t, c.isDigit = true := fun c hc =>
      hdig c (ht ▸ List.mem_cons_of_mem '7' hc)
    rw [ht]
    show norm_phone (some (String.mk ('+' :: '7' :: ('7' :: t).tail))) =
      some (String.mk ('+' :: '7' :: ('7' :: t).tail))
    have htail : ('7' :: t).tail = t := rfl
    rw [htail]
    rw [norm_phone_clean ('+' :: '7' :: t) (by simp)
      (by
        intro c hc
        rcases List.mem_cons.mp hc with rfl | hc
        · decide
        rcases List.mem_cons.mp hc with rfl | hc
        · decide
        · simp [phone_keep, htd c hc])
      (by
        rw [hasPP]
        have h7 : hasPP ('7' :: t) = false := hasPP_no_plus ('7' :: t) (by
          intro c hc
          rcases List.mem_cons.mp hc with rfl | hc
          · decide
          · exact digit_ne_plus (htd c hc))
        simp [h7])]
    have hfil : ('+' :: '7' :: t).filter Char.isDigit = '7' :: t := by
      rw [List.filter_cons_of_neg (by decide), List.filter_cons_of_pos (by decide),
        List.filter_eq_self.mpr htd]
    rw [hfil]
    have hlen' : ('7' :: t).length = 11 := by rw [← ht]; exact hlen
    rw [if_neg (by simp), if_pos (by simp [← hlen'])]
    rfl
  · -- branch: s starts with '+' and there are at least 10 digits
    obtain ⟨hsh, hlen⟩ := hb3
    obtain ⟨d, t, ht⟩ : ∃ d t, digits = d :: t := by
      cases hdx : digits with
      | nil => rw [hdx] at hlen; simp at hlen
      | cons d t => exact ⟨d, t, rfl⟩
    have hdd : d.isDigit = true := hdig d (ht ▸ List.mem_cons_self d t)
    rw [norm_phone_clean ('+' :: digits) (by simp)
      (by
        intro c hc
        rcases List.mem_cons.mp hc with rfl | hc
        · decide
        · simp [phone_keep, hdig c hc])
      (by
        rw [ht, hasPP]
        have hrest : hasPP (d :: t) = false := hasPP_no_plus (d :: t) (ht ▸ hnoplus)
        simp [digit_ne_plus hdd, hrest])]
    have hfil : ('+' :: digits).filter Char.isDigit = digits := by
      rw [List.filter_cons_of_neg (by decide), List.filter_eq_self.mpr hdig]
    rw [hfil]
    rw [if_neg hb1, if_neg hb2, if_pos (by exact ⟨rfl, hlen⟩)]
  · -- branch: no leading '+', but at least 10 digits
    obtain ⟨d, t, ht⟩ : ∃ d t, digits = d :: t := by
      cases hdx : digits with
      | nil => rw [hdx] at hb4; simp at hb4
      | cons d t => exact ⟨d, t, rfl⟩
    have hdd : d.isDigit = true := hdig d (ht ▸ List.mem_cons_self d t)
    rw [norm_phone_clean ('+' :: digits) (by simp)
      (by
        intro c hc
        rcases List.mem_cons.mp hc with rfl | hc
        · decide
        · simp [phone_keep, hdig c hc])
      (by
        rw [ht, hasPP]
        have hrest : hasPP (d :: t) = false := hasPP_no_plus (d :: t) (ht ▸ hnoplus)
        simp [digit_ne_plus hdd, hrest])]
    have hfil : ('+' :: digits).filter Char.isDigit = digits := by
      rw [List.filter_cons_of_neg (by decide), List.filter_eq_self.mpr hdig]
    rw [hfil]
    rw [if_neg hb1, if_neg hb2, if_pos (by exact ⟨rfl, hb4⟩)]
  · -- fall-through branch: fewer than 10 digits, the collapsed string is returned
    rw [norm_phone_clean s hsne hkeeps hnoPPs]
    rw [← hdg]
    rw [if_neg hb1, if_neg hb2, if_neg hb3, if_neg hb4]

/-- C8 (counterexample): `norm_phone` is not idempotent — `"+++"` normalizes
to `"++"`, which normalizes again to `"+"`. -/
theorem C8_counterexample :
    norm_phone (norm_phone (some "+++")) ≠ norm_phone (some "+++") := by decide

/-- C8 (witness): the amended idempotence theorem applied to a concrete
Russian-format phone number. -/
theorem C8_witness :
    norm_phone (norm_phone (some "8 (912) 345-67-89")) =
      norm_phone (some "8 (912) 345-67-89") :=
  C8_amended_idempotent "8 (912) 345-67-89" (by decide) (by decide)

/-! ## Lemmas about `score_suspicion` -/

/-- Invariant of the `(score, reasons)` accumulator: the score is the sum of
the weights of the reasons collected so far, and every collected reason has
positive weight. -/
def ScoreInv (acc : Nat × List String) : Prop :=
  acc.1 = (acc.2.map tag_weight).sum ∧ ∀ t ∈ acc.2, 0 < tag_weight t

theorem addSignal_inv {cond : Bool} {w : Nat} {tag : String} {acc : Nat × List String}
    (h : ScoreInv acc) (hw : tag_weight tag = w) (hpos : 0 < w) :
    ScoreInv (addSignal cond w tag acc) := by
  unfold addSignal
  split
  · constructor
    · simp [h.1, hw]
    · intro t ht
      rcases List.mem_append.mp ht with ht | ht
      · exact h.2 t ht
      · rw [List.mem_singleton.mp ht, hw]
        exact hpos
  · exact h

theorem addSignal_mem {t : String} {cond : Bool} {w : Nat} {tag : String}
    {acc : Nat × List String} (h : t ∈ (addSignal cond w tag acc).2) :
    t ∈ acc.2 ∨ t = tag := by
  unfold addSignal at h
  split at h
  · rcases List.mem_append.mp h with h | h
    · exact Or.inl h
    · exact Or.inr (List.mem_singleton.mp h)
  · exact Or.inl h

theorem scoreInv_base : ScoreInv (0, []) := ⟨rfl, by simp⟩

theorem scoreInv_chain6 (b1 b2 b3 b4 b5 b6 : Bool) :
    ScoreInv (addSignal b6 40 "repeat_leads_same_phone(>=2)"
      (addSignal b5 30 "different_names_same_vid"
        (addSignal b4 60 "different_phones_same_vid"
          (addSignal b3 60 "repeat_leads_same_vid(>=2)"
            (addSignal b2 25 "low_interaction"
              (addSignal b1 25 "fast_submit(<4s)" (0, []))))))) :=
  addSignal_inv (addSignal_inv (addSignal_inv (addSignal_inv (addSignal_inv
    (addSignal_inv scoreInv_base rfl (by decide)) rfl (by decide)) rfl (by decide))
    rfl (by decide)) rfl (by decide)) rfl (by decide)

theorem scoreInv_chain8 (b1 b2 b3 b4 b5 b6 b7 b8 : Bool) :
    ScoreInv (addSignal b8 10 "short_name"
      (addSignal b7 10 "short_phone"
        (addSignal b6 40 "repeat_leads_same_phone(>=2)"
          (addSignal b5 30 "different_names_same_vid"
            (addSignal b4 60 "different_phones_same_vid"
              (addSignal b3 60 "repeat_leads_same_vid(>=2)"
                (addSignal b2 25 "low_interaction"
                  (addSignal b1 25 "fast_submit(<4s)" (0, []))))))))) :=
  addSignal_inv (addSignal_inv (scoreInv_chain6 b1 b2 b3 b4 b5 b6) rfl (by decide))
    rfl (by decide)

theorem score_suspicion_inv (site vid : String) (interaction : List (String × Int))
    (history : Hist) (lead : Option ScoreLead) :
    ScoreInv ((score_suspicion site vid interaction history lead).1,
              (score_suspicion site vid interaction history lead).2.1) := by
  cases lead with
  | none => exact scoreInv_chain6 _ _ _ _ _ _
  | some L => exact scoreInv_chain8 _ _ _ _ _ _ _ _

/-- C9: for every input, the score returned by `score_suspicion` is exactly
the sum of the fixed weights of the reason tags it returns (each `score += w`
is paired with appending the tag of weight `w`), and the score is 0 iff the
reasons list is empty. -/
theorem C9_score_is_sum_of_reason_weights (site vid : String)
    (interaction : List (String × Int)) (history : Hist) (lead : Option ScoreLead) :
    (score_suspicion site vid interaction history lead).1 =
      (((score_suspicion site vid interaction history lead).2.1).map tag_weight).sum ∧
    ((score_suspicion site vid interaction history lead).1 = 0 ↔
      (score_suspicion site vid interaction history lead).2.1 = []) := by
  have hinv := score_suspicion_inv site vid interaction history lead
  refine ⟨hinv.1, ?_, ?_⟩
  · intro h0
    by_contra hne
    obtain ⟨a, l, hr⟩ : ∃ a l,
        (score_suspicion site vid interaction history lead).2.1 = a :: l := by
      cases hx : (score_suspicion site vid interaction history lead).2.1 with
      | nil => exact absurd hx hne
      | cons a l => exact ⟨a, l, rfl⟩
    have hpos := hinv.2 a (by rw [hr]; exact List.mem_cons_self a l)
    have hsum := hinv.1
    rw [hr, h0] at hsum
    simp only [List.map_cons, List.sum_cons] at hsum
    omega
  · intro he
    have hs := hinv.1
    rw [he] at hs
    simpa using hs

/-! ## Frame lemmas for the /collect pipeline -/

theorem find?_map_pred {α : Type} (l : List α) (f : α → α) (p : α → Bool)
    (h : ∀ x, p (f x) = p x) : (l.map f).find? p = (l.find? p).map f := by
  induction l with
  | nil => rfl
  | cons a t ih =>
      simp only [List.map_cons, List.find?]
      rw [h a]
      cases hp : p a <;> simp [hp, ih]

@[simp] theorem upsert_visitor_leads (db : DB) (site vid ip ua : String)
    (path : Option String) (i : List (String × Int)) (now : Nat) :
    (upsert_visitor db site vid ip ua path i now).leads = db.leads := by
  unfold upsert_visitor
  split <;> rfl

@[simp] theorem upsert_visitor_captchas (db : DB) (site vid ip ua : String)
    (path : Option String) (i : List (String × Int)) (now : Nat) :
    (upsert_visitor db site vid ip ua path i now).captchas = db.captchas := by
  unfold upsert_visitor
  split <;> rfl

@[simp] theorem upsert_visitor_blocked_vids (db : DB) (site vid ip ua : String)
    (path : Option String) (i : List (String × Int)) (now : Nat) :
    (upsert_visitor db site vid ip ua path i now).blocked_vids = db.blocked_vids := by
  unfold upsert_visitor
  split <;> rfl

@[simp] theorem upsert_visitor_blocked_phones (db : DB) (site vid ip ua : String)
    (path : Option String) (i : List (String × Int)) (now : Nat) :
    (upsert_visitor db site vid ip ua path i now).blocked_phones = db.blocked_phones := by
  unfold upsert_visitor
  split <;> rfl

@[simp] theorem upsert_visitor_alerts (db : DB) (site vid ip ua : String)
    (path : Option String) (i : List (String × Int)) (now : Nat) :
    (upsert_visitor db site vid ip ua path i now).alerts = db.alerts := by
  unfold upsert_visitor
  split <;> rfl

/-- Updating a visitor row preserves the fields `get_visitor` matches on, so
looking up the same key after `upsert_visitor` finds the updated row. -/
theorem get_visitor_upsert_existing (db : DB) (site vid ip ua : String)
    (path : Option String) (i : List (String × Int)) (now : Nat) (v0 : Visitor)
    (h : get_visitor db site vid = some v0) :
    get_visitor (upsert_visitor db site vid ip ua path i now) site vid =
      some { v0 with last_ts := now, last_ip := ip, last_ua := ua, last_path := path,
                     interaction := dictUpdate v0.interaction i } := by
  unfold upsert_visitor
  rw [h]
  unfold get_visitor at h ⊢
  rw [find?_map_pred _ _ _ (fun x => by
    by_cases hc : (x.site == site && x.vid == vid) = true
    · rw [if_pos hc]
    · rw [if_neg hc])]
  rw [h]
  have hp : v0.site = site ∧ v0.vid = vid := by
    have hq := List.find?_some h
    simpa using hq
  simp [hp.1, hp.2]

/-- `is_blocked` only reads the two block tables. -/
theorem is_blocked_congr (db db' : DB) (vid : String) (phone : Option String)
    (hv : db'.blocked_vids = db.blocked_vids)
    (hp : db'.blocked_phones = db.blocked_phones) :
    is_blocked db' vid phone = is_blocked db vid phone := by
  unfold is_blocked
  rw [hv, hp]

@[simp] theorem lead_insert_leads (db : DB) (site vid ip ua name : String)
    (phone : Option String) (email fa fi : String) (now : Nat) :
    (lead_insert db site vid ip ua name phone email fa fi now).leads =
      db.leads ++ [{ ts := now, site := site, vid := vid, ip := ip, ua := ua,
                     name := name, phone := phone, email := email,
                     form_action := fa, form_id := fi }] := rfl

@[simp] theorem lead_insert_captchas (db : DB) (site vid ip ua name : String)
    (phone : Option String) (email fa fi : String) (now : Nat) :
    (lead_insert db site vid ip ua name phone email fa fi now).captchas =
      db.captchas := rfl

@[simp] theorem lead_insert_blocked_vids (db : DB) (site vid ip ua name : String)
    (phone : Option String) (email fa fi : String) (now : Nat) :
    (lead_insert db site vid ip ua name phone email fa fi now).blocked_vids =
      db.blocked_vids := rfl

@[simp] theorem lead_insert_blocked_phones (db : DB) (site vid ip ua name : String)
    (phone : Option String) (email fa fi : String) (now : Nat) :
    (lead_insert db site vid ip ua name phone email fa fi now).blocked_phones =
      db.blocked_phones := rfl

@[simp] theorem lead_insert_alerts (db : DB) (site vid ip ua name : String)
    (phone : Option String) (email fa fi : String) (now : Nat) :
    (lead_insert db site vid ip ua name phone email fa fi now).alerts =
      db.alerts := rfl

/-- The suspicion recomputed by `lead_rescore` on its input database. -/
def rescore_result (db : DB) (site vid name : String) (phone : Option String)
    (email : String) : Nat × List String × Bool × Bool :=
  score_suspicion site vid (visitor_interaction db site vid)
    (lead_history_stats db site vid phone) (some ⟨name, phone, email⟩)

theorem lead_rescore_leads (db : DB) (site vid name : String) (phone : Option String)
    (email : String) (now : Nat) :
    (lead_rescore db site vid name phone email now).leads = db.leads := by
  simp only [lead_rescore, create_alert, apply_ite DB.leads, ite_self]

theorem lead_rescore_captchas (db : DB) (site vid name : String) (phone : Option String)
    (email : String) (now : Nat) :
    (lead_rescore db site vid name phone email now).captchas = db.captchas := by
  simp only [lead_rescore, create_alert, apply_ite DB.captchas, ite_self]

theorem lead_rescore_blocked_vids (db : DB) (site vid name : String) (phone : Option String)
    (email : String) (now : Nat) :
    (lead_rescore db site vid name phone email now).blocked_vids = db.blocked_vids := by
  simp only [lead_rescore, create_alert, apply_ite DB.blocked_vids, ite_self]

theorem lead_rescore_blocked_phones (db : DB) (site vid name : String) (phone : Option String)
    (email : String) (now : Nat) :
    (lead_rescore db site vid name phone email now).blocked_phones = db.blocked_phones := by
  simp only [lead_rescore, create_alert, apply_ite DB.blocked_phones, ite_self]

theorem lead_rescore_alerts (db : DB) (site vid name : String) (phone : Option String)
    (email : String) (now : Nat) :
    (lead_rescore db site vid name phone email now).alerts =
      db.alerts ++
        (if (rescore_result db site vid name phone email).2.2.2 = true then
          [{ ts := now, site := site, vid := vid, phone := phone, name := name,
             score := (rescore_result db site vid name phone email).1,
             reasons := (rescore_result db site vid name phone email).2.1 }]
         else []) := by
  simp only [lead_rescore, create_alert, rescore_result, apply_ite DB.alerts]
  split
  · simp
  · simp

theorem lead_rescore_visitor_fields (db : DB) (site vid name : String)
    (phone : Option String) (email : String) (now : Nat) :
    ∀ w ∈ (lead_rescore db site vid name phone email now).visitors,
      w.site = site → w.vid = vid →
      w.last_score = (rescore_result db site vid name phone email).1 ∧
      w.last_reasons = (rescore_result db site vid name phone email).2.1 ∧
      w.captcha_required = (rescore_result db site vid name phone email).2.2.1 ∧
      w.suspicious = (rescore_result db site vid name phone email).2.2.2 ∧
      w.blocked = is_blocked db vid phone := by
  intro w hw hsite hvid
  simp only [lead_rescore, create_alert, apply_ite DB.visitors, ite_self] at hw
  rcases List.mem_map.mp hw with ⟨u, hu, rfl⟩
  by_cases hc : (u.site == site && u.vid == vid) = true
  · rw [if_pos hc]
    exact ⟨rfl, rfl, rfl, rfl, rfl⟩
  · rw [if_neg hc] at hsite hvid
    exact absurd (by simp [hsite, hvid]) hc

/-- Default value of the optional `lead` payload (`payload.lead or {}`). -/
def emptyLeadIn : LeadIn := ⟨none, none, none, none, none⟩

/-- Default value of the optional `captcha` payload (`payload.captcha or {}`). -/
def emptyCaptchaIn : CaptchaIn := ⟨none, none⟩

/-- Unfolding of /collect on a `kind="lead"` request that passes validation:
the pipeline upserts the visitor, evaluates the captcha gate and either
rejects with 403 (returning the rolled-back input DB) or runs the
accepted-lead branch. -/
theorem collect_lead_eq (db : DB) (p : CollectIn) (ip ua : String) (now : Nat)
    (site vid : String)
    (hsite : pyTake (pyStrip p.site) 200 = site)
    (hvid : pyTake (pyStrip p.vid) 200 = vid)
    (hk : p.kind = "lead") (hs : site ≠ "") (hv : vid ≠ "") :
    collect db p ip ua now =
      (if collect_need_captcha
            (upsert_visitor db site vid ip ua p.path (p.interaction.getD []) now) site vid &&
          !(if collect_need_captcha
                (upsert_visitor db site vid ip ua p.path (p.interaction.getD []) now) site vid then
              captcha_check
                (upsert_visitor db site vid ip ua p.path (p.interaction.getD []) now).captchas
                (p.captcha.getD emptyCaptchaIn) site vid now
            else true) then
         (db, .error (.forbidden "captcha_required"))
       else
         (lead_accept (upsert_visitor db site vid ip ua p.path (p.interaction.getD []) now)
           site vid ip ua
           (pyStrip ((p.lead.getD emptyLeadIn).name.getD ""))
           (norm_phone (p.lead.getD emptyLeadIn).phone)
           (pyStrip ((p.lead.getD emptyLeadIn).email.getD ""))
           (pyStrip ((p.lead.getD emptyLeadIn).form_action.getD ""))
           (pyStrip ((p.lead.getD emptyLeadIn).form_id.getD "")) now,
          .ok ⟨true⟩)) := by
  unfold collect
  rw [hsite, hvid, hk]
  have hval : (site = "" ∨ vid = "") = False := by
    simp only [eq_iff_iff, iff_false]
    rintro (h | h)
    · exact hs h
    · exact hv h
  have hev : ("lead" = "event" ∨ "lead" = "heartbeat") = False := by simp
  have hll : ("lead" = "lead") = True := by simp
  simp only [hval, hev, hll, if_false, if_true]
  rfl

/-- C5: if the visitor owes a challenge (`captcha_required` on its row) and
the supplied captcha fails verification, /collect answers 403
"captcha_required" and the store is completely unchanged — no lead row, no
visitor mutation (the transaction opened by the upsert is rolled back when
the connection closes without a commit). -/
theorem C5_challenged_submission_persists_nothing (db : DB) (p : CollectIn)
    (ip ua : String) (now : Nat) (site vid : String) (v0 : Visitor)
    (hsite : pyTake (pyStrip p.site) 200 = site)
    (hvid : pyTake (pyStrip p.vid) 200 = vid)
    (hk : p.kind = "lead") (hs : site ≠ "") (hv : vid ≠ "")
    (hrow : get_visitor db site vid = some v0)
    (howes : v0.captcha_required = true)
    (hfail : captcha_check db.captchas (p.captcha.getD emptyCaptchaIn) site vid now = false) :
    collect db p ip ua now = (db, .error (.forbidden "captcha_required")) := by
  rw [collect_lead_eq db p ip ua now site vid hsite hvid hk hs hv]
  have hup := get_visitor_upsert_existing db site vid ip ua p.path (p.interaction.getD []) now v0 hrow
  have hneed : collect_need_captcha
      (upsert_visitor db site vid ip ua p.path (p.interaction.getD []) now) site vid = true := by
    unfold collect_need_captcha
    rw [hup]
    exact howes
  have hchk : captcha_check
      (upsert_visitor db site vid ip ua p.path (p.interaction.getD []) now).captchas
      (p.captcha.getD emptyCaptchaIn) site vid now = false := by
    rw [upsert_visitor_captchas]
    exact hfail
  simp [hneed, hchk, hfail]

/-- Concrete database for the C5 witness: one visitor who owes a captcha. -/
def dbC5 : DB :=
  { DB.empty with visitors :=
      [⟨"v", "s", 0, 0, "", "", none, [], 0, [], true, false, false, 0, none, none⟩] }

/-- Concrete request for the C5 witness: a lead with no captcha answer. -/
def inpC5 : CollectIn :=
  { site := "s", vid := "v", path := none, ref := none, kind := "lead",
    interaction := none,
    lead := some ⟨some "Ann", some "+71234567890", none, none, none⟩,
    captcha := none }

/-- C5 (witness): the theorem applied at a concrete challenged submission. -/
theorem C5_witness :
    collect dbC5 inpC5 "ip" "ua" 7 = (dbC5, .error (.forbidden "captcha_required")) :=
  C5_challenged_submission_persists_nothing dbC5 inpC5 "ip" "ua" 7 "s" "v"
    ⟨"v", "s", 0, 0, "", "", none, [], 0, [], true, false, false, 0, none, none⟩
    (by decide) (by decide) rfl (by decide) (by decide) rfl rfl rfl

/-- Unfolding of /risk on inputs that pass validation. -/
theorem risk_eq (db : DB) (site0 vid0 site vid : String)
    (hsite : pyTake (pyStrip site0) 200 = site)
    (hvid : pyTake (pyStrip vid0) 200 = vid)
    (hs : site ≠ "") (hv : vid ≠ "") :
    risk db site0 vid0 =
      (match get_visitor db site vid with
       | none => .ok ⟨false, false, false, 0, [], 0, 0, 0⟩
       | some v =>
           .ok ⟨is_blocked db vid v.last_phone, v.suspicious, v.captcha_required,
                v.last_score, v.last_reasons,
                (db.leads.filter (fun l => l.site == site && l.vid == vid)).length,
                (((db.leads.filter (fun l => l.site == site && l.vid == vid)).map
                    (fun l => l.phone.getD "")).dedup).length,
                (((db.leads.filter (fun l => l.site == site && l.vid == vid)).map
                    (fun l => l.name)).dedup).length⟩) := by
  unfold risk
  rw [hsite, hvid]
  have hval : (site = "" ∨ vid = "") = False := by
    simp only [eq_iff_iff, iff_false]
    rintro (h | h)
    · exact hs h
    · exact hv h
  simp only [hval, if_false]

/-- C10: if no visitor row exists for the (site, vid) pair, /risk returns the
all-false, zero-score default without consulting the block tables: the answer
is the same whatever `blocked_vids`/`blocked_phones` contain. -/
theorem C10_unknown_visitor_default (db : DB) (site0 vid0 : String)
    (hs : pyTake (pyStrip site0) 200 ≠ "") (hv : pyTake (pyStrip vid0) 200 ≠ "")
    (hnone : get_visitor db (pyTake (pyStrip site0) 200) (pyTake (pyStrip vid0) 200) = none) :
    risk db site0 vid0 = .ok ⟨false, false, false, 0, [], 0, 0, 0⟩ ∧
    ∀ bp bv, risk { db with blocked_phones := bp, blocked_vids := bv } site0 vid0 =
      risk db site0 vid0 := by
  constructor
  · rw [risk_eq db site0 vid0 _ _ rfl rfl hs hv, hnone]
  · intro bp bv
    have hnone2 : get_visitor { db with blocked_phones := bp, blocked_vids := bv }
        (pyTake (pyStrip site0) 200) (pyTake (pyStrip vid0) 200) = none := hnone
    rw [risk_eq db site0 vid0 _ _ rfl rfl hs hv, hnone,
      risk_eq { db with blocked_phones := bp, blocked_vids := bv } site0 vid0 _ _ rfl rfl hs hv,
      hnone2]

/-- Concrete database for the C10 witness: `blocked_vids` contains "v" but
there is no visitor row at all. -/
def dbC10 : DB := { DB.empty with blocked_vids := [⟨"v", 0, "manual", none⟩] }

/-- C10 (witness): the theorem applied at a concrete state in which the
queried vid is present in `blocked_vids`, yet /risk reports blocked=false. -/
theorem C10_witness : risk dbC10 "s" "v" = .ok ⟨false, false, false, 0, [], 0, 0, 0⟩ :=
  (C10_unknown_visitor_default dbC10 "s" "v" (by decide) (by decide) rfl).1

/-- The lead row written by the accepted-lead branch. -/
theorem lead_accept_leads (db : DB) (site vid ip ua name : String)
    (phone : Option String) (email fa fi : String) (now : Nat) :
    (lead_accept db site vid ip ua name phone email fa fi now).leads =
      db.leads ++ [{ ts := now, site := site, vid := vid, ip := ip, ua := ua,
                     name := name, phone := phone, email := email,
                     form_action := fa, form_id := fi }] := by
  unfold lead_accept
  rw [lead_rescore_leads, lead_insert_leads]

theorem lead_accept_captchas (db : DB) (site vid ip ua name : String)
    (phone : Option String) (email fa fi : String) (now : Nat) :
    (lead_accept db site vid ip ua name phone email fa fi now).captchas =
      db.captchas := by
  unfold lead_accept
  rw [lead_rescore_captchas, lead_insert_captchas]

theorem lead_accept_blocked_vids (db : DB) (site vid ip ua name : String)
    (phone : Option String) (email fa fi : String) (now : Nat) :
    (lead_accept db site vid ip ua name phone email fa fi now).blocked_vids =
      db.blocked_vids := by
  unfold lead_accept
  rw [lead_rescore_blocked_vids, lead_insert_blocked_vids]

theorem lead_accept_blocked_phones (db : DB) (site vid ip ua name : String)
    (phone : Option String) (email fa fi : String) (now : Nat) :
    (lead_accept db site vid ip ua name phone email fa fi now).blocked_phones =
      db.blocked_phones := by
  unfold lead_accept
  rw [lead_rescore_blocked_phones, lead_insert_blocked_phones]

/-- On the rows matching (site, vid), the accepted-lead branch stores the
block-registry answer in the cached `blocked` flag. -/
theorem lead_accept_visitor_blocked (db : DB) (site vid ip ua name : String)
    (phone : Option String) (email fa fi : String) (now : Nat) :
    ∀ w ∈ (lead_accept db site vid ip ua name phone email fa fi now).visitors,
      w.site = site → w.vid = vid → w.blocked = is_blocked db vid phone := by
  intro w hw hws hwv
  have h := lead_rescore_visitor_fields
    (lead_insert db site vid ip ua name phone email fa fi now)
    site vid name phone email now w hw hws hwv
  rw [h.2.2.2.2]
  exact is_blocked_congr db _ vid phone
    (lead_insert_blocked_vids db site vid ip ua name phone email fa fi now)
    (lead_insert_blocked_phones db site vid ip ua name phone email fa fi now)

/-- C1 (amended): a block entry is not a veto: a lead submission from a
blocked visitor (or blocked phone) that passes the captcha gate is processed
like any other — the response is the generic ok, the lead row is persisted
and the risk is scored; the only effect of the block is that the visitor
row's cached `blocked` flag is set to true. -/
theorem C1_amended_blocked_lead_still_persisted (db : DB) (p : CollectIn)
    (ip ua : String) (now : Nat) (site vid : String) (r : CollectResp)
    (hsite : pyTake (pyStrip p.site) 200 = site)
    (hvid : pyTake (pyStrip p.vid) 200 = vid)
    (hk : p.kind = "lead") (hs : site ≠ "") (hv : vid ≠ "")
    (hb : is_blocked db vid (norm_phone (p.lead.getD emptyLeadIn).phone) = true)
    (hok : (collect db p ip ua now).2 = .ok r) :
    r.ok = true ∧
    (collect db p ip ua now).1.leads.length = db.leads.length + 1 ∧
    ∀ w ∈ (collect db p ip ua now).1.visitors, w.site = site → w.vid = vid →
      w.blocked = true := by
  rw [collect_lead_eq db p ip ua now site vid hsite hvid hk hs hv] at hok ⊢
  by_cases hg : (collect_need_captcha
      (upsert_visitor db site vid ip ua p.path (p.interaction.getD []) now) site vid &&
      !(if collect_need_captcha
            (upsert_visitor db site vid ip ua p.path (p.interaction.getD []) now) site vid then
          captcha_check
            (upsert_visitor db site vid ip ua p.path (p.interaction.getD []) now).captchas
            (p.captcha.getD emptyCaptchaIn) site vid now
        else true)) = true
  · rw [if_pos hg] at hok
    simp at hok
  · rw [if_neg hg] at hok ⊢
    have hr : r = ⟨true⟩ := by
      simpa using hok.symm
    refine ⟨by rw [hr], ?_, ?_⟩
    · show (lead_accept (upsert_visitor db site vid ip ua p.path (p.interaction.getD []) now)
        site vid ip ua _ _ _ _ _ now).leads.length = db.leads.length + 1
      rw [lead_accept_leads, List.length_append, upsert_visitor_leads]
      rfl
    · intro w hw hws hwv
      have hbl := lead_accept_visitor_blocked
        (upsert_visitor db site vid ip ua p.path (p.interaction.getD []) now)
        site vid ip ua _ _ _ _ _ now w hw hws hwv
      rw [hbl]
      rw [is_blocked_congr db _ vid _
        (upsert_visitor_blocked_vids db site vid ip ua p.path (p.interaction.getD []) now)
        (upsert_visitor_blocked_phones db site vid ip ua p.path (p.interaction.getD []) now)]
      exact hb

/-- Concrete database for the C1 counterexample: the submitting vid is in
`blocked_vids`. -/
def dbC1 : DB := { DB.empty with blocked_vids := [⟨"v1", 0, "manual", none⟩] }

/-- Concrete request for C1: a well-behaved lead from the blocked vid. -/
def inpC1 : CollectIn :=
  { site := "s1", vid := "v1", path := none, ref := none, kind := "lead",
    interaction := none,
    lead := some ⟨some "Bob", some "+71234567890", none, none, none⟩,
    captcha := none }

/-- C1 (counterexample): a lead submission from a blocked visitor is NOT
rejected: /collect answers the generic ok, persists the lead row, and the
risk scorer runs (a score and reasons are computed and stored). -/
theorem C1_counterexample :
    is_blocked dbC1 "v1" (norm_phone (some "+71234567890")) = true ∧
    (collect dbC1 inpC1 "ip" "ua" 1000).2 = .ok ⟨true⟩ ∧
    (collect dbC1 inpC1 "ip" "ua" 1000).1.leads.length = 1 ∧
    ((get_visitor (collect dbC1 inpC1 "ip" "ua" 1000).1 "s1" "v1").map
      (fun v => v.last_score)) = some 25 ∧
    ((get_visitor (collect dbC1 inpC1 "ip" "ua" 1000).1 "s1" "v1").map
      (fun v => v.last_reasons)) = some ["low_interaction"] := by decide

/-- C1 (witness): the amended theorem applied to the concrete blocked
submission of the counterexample. -/
theorem C1_witness :
    (collect dbC1 inpC1 "ip" "ua" 1000).1.leads.length = dbC1.leads.length + 1 := by
  have h := C1_amended_blocked_lead_still_persisted dbC1 inpC1 "ip" "ua" 1000 "s1" "v1"
    ⟨true⟩ (by decide) (by decide) rfl (by decide) (by decide) (by decide) (by decide)
  exact h.2.1

/-- The alerts written by the accepted-lead branch, expressed through the
fields stored on the matching visitor row: one alert row is appended exactly
when the freshly computed `suspicious` flag is set, independently of the
alerts already present. -/
theorem lead_accept_alerts_of_visitor (db : DB) (site vid ip ua name : String)
    (phone : Option String) (email fa fi : String) (now : Nat) :
    ∀ w ∈ (lead_accept db site vid ip ua name phone email fa fi now).visitors,
      w.site = site → w.vid = vid →
      (lead_accept db site vid ip ua name phone email fa fi now).alerts =
        db.alerts ++
          (if w.suspicious = true then
            [{ ts := now, site := site, vid := vid, phone := phone, name := name,
               score := w.last_score, reasons := w.last_reasons }]
           else []) := by
  intro w hw hws hwv
  have hf := lead_rescore_visitor_fields
    (lead_insert db site vid ip ua name phone email fa fi now)
    site vid name phone email now w hw hws hwv
  show (lead_rescore (lead_insert db site vid ip ua name phone email fa fi now)
      site vid name phone email now).alerts = _
  rw [lead_rescore_alerts, lead_insert_alerts, hf.1, hf.2.1, hf.2.2.2.1]

/-- C4 (amended): there is no alert deduplication or cooldown.  On every
accepted lead, /collect appends one alert row exactly when the recomputed
score reaches the alert threshold (the `suspicious` flag stored on the
visitor row), whatever alerts — however recent, with whatever key — are
already in the table. -/
theorem C4_amended_alert_has_no_cooldown (db : DB) (p : CollectIn)
    (ip ua : String) (now : Nat) (site vid : String) (r : CollectResp)
    (hsite : pyTake (pyStrip p.site) 200 = site)
    (hvid : pyTake (pyStrip p.vid) 200 = vid)
    (hk : p.kind = "lead") (hs : site ≠ "") (hv : vid ≠ "")
    (hok : (collect db p ip ua now).2 = .ok r) :
    ∀ w ∈ (collect db p ip ua now).1.visitors, w.site = site → w.vid = vid →
      (collect db p ip ua now).1.alerts =
        db.alerts ++
          (if w.suspicious = true then
            [{ ts := now, site := site, vid := vid,
               phone := norm_phone (p.lead.getD emptyLeadIn).phone,
               name := pyStrip ((p.lead.getD emptyLeadIn).name.getD ""),
               score := w.last_score, reasons := w.last_reasons }]
           else []) := by
  rw [collect_lead_eq db p ip ua now site vid hsite hvid hk hs hv] at hok ⊢
  by_cases hg : (collect_need_captcha
      (upsert_visitor db site vid ip ua p.path (p.interaction.getD []) now) site vid &&
      !(if collect_need_captcha
            (upsert_visitor db site vid ip ua p.path (p.interaction.getD []) now) site vid then
          captcha_check
            (upsert_visitor db site vid ip ua p.path (p.interaction.getD []) now).captchas
            (p.captcha.getD emptyCaptchaIn) site vid now
        else true)) = true
  · rw [if_pos hg] at hok
    simp at hok
  · rw [if_neg hg] at hok ⊢
    intro w hw hws hwv
    have ha := lead_accept_alerts_of_visitor
      (upsert_visitor db site vid ip ua p.path (p.interaction.getD []) now)
      site vid ip ua _ _ _ _ _ now w hw hws hwv
    rw [ha, upsert_visitor_alerts]

/-- Concrete database for C4: a pre-issued captcha challenge so that the
second submission can pass the gate. -/
def dbC4 : DB := { DB.empty with captchas := [⟨"cc", 0, "v", "s", "q", "7"⟩] }

/-- First C4 submission: fast, interaction-free, short phone — scores 60. -/
def inpC4a : CollectIn :=
  { site := "s", vid := "v", path := none, ref := none, kind := "lead",
    interaction := some [("duration_ms", 1000)],
    lead := some ⟨none, some "123", none, none, none⟩,
    captcha := none }

/-- Second C4 submission, one minute later, answering the challenge. -/
def inpC4b : CollectIn :=
  { site := "s", vid := "v", path := none, ref := none, kind := "lead",
    interaction := some [("duration_ms", 1000)],
    lead := some ⟨none, some "123", none, none, none⟩,
    captcha := some ⟨some "cc", some "7"⟩ }

/-- C4 (counterexample): two qualifying high-risk submissions with the same
(site, visitor) key only 60 seconds apart — well inside any 10-minute
cooldown — produce TWO alert records, not one. -/
theorem C4_counterexample :
    (collect dbC4 inpC4a "ip" "ua" 0).2 = .ok ⟨true⟩ ∧
    (collect (collect dbC4 inpC4a "ip" "ua" 0).1 inpC4b "ip" "ua" 60).2 = .ok ⟨true⟩ ∧
    ((collect (collect dbC4 inpC4a "ip" "ua" 0).1 inpC4b "ip" "ua" 60).1.alerts.map
      (fun a => a.ts)) = [0, 60] ∧
    ((collect (collect dbC4 inpC4a "ip" "ua" 0).1 inpC4b "ip" "ua" 60).1.alerts.map
      (fun a => a.score)) = [60, 160] := by decide

/-- C4 (witness): the amended theorem applied to the first concrete
qualifying submission — exactly one alert is appended. -/
theorem C4_witness :
    (collect dbC4 inpC4a "ip" "ua" 0).1.alerts =
      dbC4.alerts ++ [{ ts := 0, site := "s", vid := "v", phone := some "123",
                        name := "", score := 60,
                        reasons := ["fast_submit(<4s)", "low_interaction", "short_phone"] }] := by
  have h := C4_amended_alert_has_no_cooldown dbC4 inpC4a "ip" "ua" 0 "s" "v" ⟨true⟩
    (by decide) (by decide) rfl (by decide) (by decide) (by decide)
  have h2 := h ⟨"v", "s", 0, 0, "ip", "ua", none, [("duration_ms", 1000)], 60,
      ["fast_submit(<4s)", "low_interaction", "short_phone"], true, true, false, 1,
      some "123", some ""⟩ (by decide) rfl rfl
  exact h2.trans (by decide)

/-- /collect never deletes, rewrites or marks captcha challenges: the
`captcha_challenges` table is unchanged by every request, including one that
successfully verifies a challenge. -/
theorem collect_captchas (db : DB) (p : CollectIn) (ip ua : String) (now : Nat) :
    (collect db p ip ua now).1.captchas = db.captchas := by
  simp only [collect]
  split_ifs <;>
    simp [lead_accept_captchas, apply_ite DB.captchas]

/-- C2 (amended): a successful verification does require the challenge to be
bound to the same (site, visitor), unexpired and answered correctly — but no
challenge is ever marked consumed: the challenge table is left unchanged by
the verifying request, so the very same challenge id with the same correct
answer verifies successfully again. -/
theorem C2_amended_challenge_bound_but_never_consumed (db : DB) (p : CollectIn)
    (ip ua : String) (now : Nat) (cap : CaptchaIn) (site vid : String)
    (hsucc : captcha_check db.captchas cap site vid now = true) :
    (∃ ch ∈ db.captchas,
        ch.id = pyStrip (cap.id.getD "") ∧ ch.vid = vid ∧ ch.site = site ∧
        (now : Int) - (ch.ts : Int) ≤ (CAPTCHA_TTL_SEC : Int)) ∧
    captcha_check (collect db p ip ua now).1.captchas cap site vid now = true := by
  constructor
  · simp only [captcha_check] at hsucc
    split at hsucc
    · next hA =>
        cases hfind : db.captchas.find?
            (fun ch => ch.id == pyStrip (cap.id.getD "")) with
        | none => rw [hfind] at hsucc; exact absurd hsucc (by simp)
        | some ch =>
            rw [hfind] at hsucc
            dsimp only at hsucc
            split at hsucc
            · next httl =>
                split at hsucc
                · next hbind =>
                    have hid : (ch.id == pyStrip (cap.id.getD "")) = true := by
                      have hq := List.find?_some hfind
                      simpa using hq
                    have hb : ch.vid = vid ∧ ch.site = site := by
                      have hb1 := hbind
                      simp only [Bool.and_eq_true, beq_iff_eq] at hb1
                      exact ⟨hb1.1.1, hb1.1.2⟩
                    exact ⟨ch, List.mem_of_find?_eq_some hfind,
                      by simpa using hid, hb.1, hb.2, httl⟩
                · exact absurd hsucc (by simp)
            · exact absurd hsucc (by simp)
    · exact absurd hsucc (by simp)
  · rw [collect_captchas]
    exact hsucc

/-- Concrete database for C2: a visitor who owes a challenge, and one issued
challenge with answer "5". -/
def dbC2 : DB :=
  { DB.empty with
    visitors := [⟨"v", "s", 0, 0, "", "", none, [], 0, [], true, false, false, 0, none, none⟩],
    captchas := [⟨"c1", 100, "v", "s", "2+3?", "5"⟩] }

/-- Concrete C2 request: a lead carrying the correct answer to challenge c1. -/
def inpC2 : CollectIn :=
  { site := "s", vid := "v", path := none, ref := none, kind := "lead",
    interaction := some [("duration_ms", 1000)],
    lead := some ⟨none, none, none, none, none⟩,
    captcha := some ⟨some "c1", some "5"⟩ }

/-- C2 (counterexample): the same challenge id with the same correct answer
verifies successfully twice.  The first submission is accepted through
challenge c1; the visitor still owes a challenge afterwards, and a second
submission resending c1 with the same answer is accepted as well (two lead
rows), instead of failing as a consumed challenge. -/
theorem C2_counterexample :
    (collect dbC2 inpC2 "ip" "ua" 200).2 = .ok ⟨true⟩ ∧
    ((get_visitor (collect dbC2 inpC2 "ip" "ua" 200).1 "s" "v").map
      (fun v => v.captcha_required)) = some true ∧
    (collect (collect dbC2 inpC2 "ip" "ua" 200).1 inpC2 "ip" "ua" 300).2 = .ok ⟨true⟩ ∧
    (collect (collect dbC2 inpC2 "ip" "ua" 200).1 inpC2 "ip" "ua" 300).1.leads.length = 2 := by
  decide

/-- C2 (witness): the amended theorem applied to the concrete verifying
request — after the challenge has been used once, it still verifies. -/
theorem C2_witness :
    captcha_check (collect dbC2 inpC2 "ip" "ua" 200).1.captchas
      ⟨some "c1", some "5"⟩ "s" "v" 200 = true :=
  (C2_amended_challenge_bound_but_never_consumed dbC2 inpC2 "ip" "ua" 200
    ⟨some "c1", some "5"⟩ "s" "v" (by decide)).2

/-- C3 (amended): /captcha/new persists the challenge with the expected
answer stored VERBATIM in the `answer` column — `str(a+b)` itself, with no
commitment, no keyed one-way function and no server-held secret anywhere in
the operation. -/
theorem C3_amended_plaintext_answer_stored (db : DB) (site0 vid0 : String)
    (a b : Nat) (cid : String) (now : Nat)
    (hs : pyTake (pyStrip site0) 200 ≠ "") (hv : pyTake (pyStrip vid0) 200 ≠ "") :
    (captcha_new db site0 vid0 a b cid now).1.captchas =
      db.captchas ++
        [{ id := cid, ts := now, vid := pyTake (pyStrip vid0) 200,
           site := pyTake (pyStrip site0) 200,
           question := "Сколько будет " ++ toString a ++ "+" ++ toString b ++ "?",
           answer := toString (a + b) }] := by
  simp only [captcha_new]
  have hval : (pyTake (pyStrip site0) 200 = "" ∨ pyTake (pyStrip vid0) 200 = "") = False := by
    simp only [eq_iff_iff, iff_false]
    rintro (h | h)
    · exact hs h
    · exact hv h
  simp only [hval, if_false]

/-- C3 (counterexample): for the concrete draw a=2, b=3, the persisted
challenge row's `answer` field equals the plaintext correct answer
`str(2+3) = "5"` — no commitment is stored. -/
theorem C3_counterexample :
    ((captcha_new DB.empty "s" "v" 2 3 "cid0" 100).1.captchas.map
      (fun ch => ch.answer)) = [toString (2 + 3)] := by decide

/-- C3 (witness): the amended theorem applied at the concrete issuance. -/
theorem C3_witness :
    (captcha_new DB.empty "s" "v" 2 3 "cid0" 100).1.captchas =
      DB.empty.captchas ++ [⟨"cid0", 100, "v", "s", "Сколько будет 2+3?", "5"⟩] := by
  have h := C3_amended_plaintext_answer_stored DB.empty "s" "v" 2 3 "cid0" 100
    (by decide) (by decide)
  exact h.trans (by decide)

/-- Conditional membership in the accumulator: a tag can only appear if its
guarding condition held. -/
theorem addSignal_mem_cond {t : String} {cond : Bool} {w : Nat} {tag : String}
    {acc : Nat × List String} (h : t ∈ (addSignal cond w tag acc).2) :
    t ∈ acc.2 ∨ (t = tag ∧ cond = true) := by
  unfold addSignal at h
  split at h
  · next hc =>
      rcases List.mem_append.mp h with h | h
      · exact Or.inl h
      · exact Or.inr ⟨List.mem_singleton.mp h, hc⟩
  · exact Or.inl h

/-- Every reason returned by `score_suspicion` is one of the eight fixed
tags, and each repeat-submission tag can only appear when its history
condition held. -/
theorem mem_score_reasons (site vid : String) (inter : List (String × Int))
    (hist : Hist) (sl : Option ScoreLead) (t : String)
    (hmem : t ∈ (score_suspicion site vid inter hist sl).2.1) :
    t = "fast_submit(<4s)" ∨ t = "low_interaction" ∨
    (t = "repeat_leads_same_vid(>=2)" ∧ 2 ≤ hist.vid_count) ∨
    (t = "different_phones_same_vid" ∧ 2 ≤ hist.distinct_phones) ∨
    (t = "different_names_same_vid" ∧ 2 ≤ hist.distinct_names) ∨
    (t = "repeat_leads_same_phone(>=2)" ∧ 2 ≤ hist.phone_count) ∨
    t = "short_phone" ∨ t = "short_name" := by
  cases sl with
  | none =>
      rcases addSignal_mem_cond hmem with h6 | ⟨rfl, hc⟩
      · rcases addSignal_mem_cond h6 with h5 | ⟨rfl, hc⟩
        · rcases addSignal_mem_cond h5 with h4 | ⟨rfl, hc⟩
          · rcases addSignal_mem_cond h4 with h3 | ⟨rfl, hc⟩
            · rcases addSignal_mem_cond h3 with h2 | ⟨rfl, hc⟩
              · rcases addSignal_mem_cond h2 with h1 | ⟨rfl, hc⟩
                · simp at h1
                · exact Or.inl rfl
              · exact Or.inr (Or.inl rfl)
            · exact Or.inr (Or.inr (Or.inl ⟨rfl, of_decide_eq_true hc⟩))
          · exact Or.inr (Or.inr (Or.inr (Or.inl ⟨rfl, of_decide_eq_true hc⟩)))
        · exact Or.inr (Or.inr (Or.inr (Or.inr (Or.inl ⟨rfl, of_decide_eq_true hc⟩))))
      · exact Or.inr (Or.inr (Or.inr (Or.inr (Or.inr (Or.inl ⟨rfl, of_decide_eq_true hc⟩)))))
  | some L =>
      rcases addSignal_mem_cond hmem with h8 | ⟨rfl, hc⟩
      · rcases addSignal_mem_cond h8 with h7 | ⟨rfl, hc⟩
        · rcases addSignal_mem_cond h7 with h6 | ⟨rfl, hc⟩
          · rcases addSignal_mem_cond h6 with h5 | ⟨rfl, hc⟩
            · rcases addSignal_mem_cond h5 with h4 | ⟨rfl, hc⟩
              · rcases addSignal_mem_cond h4 with h3 | ⟨rfl, hc⟩
                · rcases addSignal_mem_cond h3 with h2 | ⟨rfl, hc⟩
                  · rcases addSignal_mem_cond h2 with h1 | ⟨rfl, hc⟩
                    · simp at h1
                    · exact Or.inl rfl
                  · exact Or.inr (Or.inl rfl)
                · exact Or.inr (Or.inr (Or.inl ⟨rfl, of_decide_eq_true hc⟩))
              · exact Or.inr (Or.inr (Or.inr (Or.inl ⟨rfl, of_decide_eq_true hc⟩)))
            · exact Or.inr (Or.inr (Or.inr (Or.inr (Or.inl ⟨rfl, of_decide_eq_true hc⟩))))
          · exact Or.inr (Or.inr (Or.inr (Or.inr (Or.inr (Or.inl ⟨rfl, of_decide_eq_true hc⟩)))))
        · exact Or.inr (Or.inr (Or.inr (Or.inr (Or.inr (Or.inr (Or.inl rfl))))))
      · exact Or.inr (Or.inr (Or.inr (Or.inr (Or.inr (Or.inr (Or.inr rfl))))))

/-- With fewer than two entries on every history axis, `score_suspicion`
emits none of the repeat-submission reason tags. -/
theorem score_suspicion_no_repeat (site vid : String) (inter : List (String × Int))
    (hist : Hist) (sl : Option ScoreLead)
    (h1 : hist.vid_count < 2) (h2 : hist.distinct_phones < 2)
    (h3 : hist.distinct_names < 2) (h4 : hist.phone_count < 2) :
    ∀ t ∈ repeat_tags, t ∉ (score_suspicion site vid inter hist sl).2.1 := by
  intro t ht hmem
  have hsub := mem_score_reasons site vid inter hist sl t hmem
  simp only [repeat_tags, List.mem_cons, List.mem_singleton] at ht
  rcases ht with rfl | rfl | rfl | rfl | ht
  · rcases hsub with h | h | ⟨heq, hb⟩ | ⟨heq, hb⟩ | ⟨heq, hb⟩ | ⟨heq, hb⟩ | h | h <;>
      first
        | exact absurd h (by decide)
        | exact absurd heq (by decide)
        | omega
  · rcases hsub with h | h | ⟨heq, hb⟩ | ⟨heq, hb⟩ | ⟨heq, hb⟩ | ⟨heq, hb⟩ | h | h <;>
      first
        | exact absurd h (by decide)
        | exact absurd heq (by decide)
        | omega
  · rcases hsub with h | h | ⟨heq, hb⟩ | ⟨heq, hb⟩ | ⟨heq, hb⟩ | ⟨heq, hb⟩ | h | h <;>
      first
        | exact absurd h (by decide)
        | exact absurd heq (by decide)
        | omega
  · rcases hsub with h | h | ⟨heq, hb⟩ | ⟨heq, hb⟩ | ⟨heq, hb⟩ | ⟨heq, hb⟩ | h | h <;>
      first
        | exact absurd h (by decide)
        | exact absurd heq (by decide)
        | omega
  · simp at ht

theorem filter_retime (g : Lead → Lead) (q : Lead → Bool) (hq : ∀ l, q (g l) = q l) :
    ∀ L : List Lead, (L.map g).filter q = (L.filter q).map g := by
  intro L
  induction L with
  | nil => rfl
  | cons a tl ih =>
      simp only [List.map_cons, List.filter_cons, hq a]
      split <;> simp [ih]

theorem map_retime_proj {α : Type} (g : Lead → Lead) (h : Lead → α)
    (hcomm : ∀ l, h (g l) = h l) :
    ∀ L : List Lead, (L.map g).map h = L.map h := by
  intro L
  induction L with
  | nil => rfl
  | cons a tl ih => simp only [List.map_cons, hcomm a, ih]

/-- `lead_history_stats` applies no time window at all: retiming every lead
arbitrarily leaves all four aggregates unchanged. -/
theorem lead_history_stats_ignores_ts (db : DB) (f : Lead → Nat) (site vid : String)
    (phone : Option String) :
    lead_history_stats { db with leads := db.leads.map (fun l => { l with ts := f l }) }
      site vid phone = lead_history_stats db site vid phone := by
  unfold lead_history_stats
  have hfil := filter_retime (fun l => { l with ts := f l })
    (fun l => l.site == site && l.vid == vid) (fun l => rfl) db.leads
  simp only [Hist.mk.injEq]
  refine ⟨?_, ?_, ?_, ?_⟩
  · rw [hfil, List.length_map]
  · rw [hfil, map_retime_proj (fun l => { l with ts := f l })
      (fun l => l.phone.getD "") (fun l => rfl)]
  · rw [hfil, map_retime_proj (fun l => { l with ts := f l })
      (fun l => l.name) (fun l => rfl)]
  · cases phone with
    | none => rfl
    | some ph =>
        dsimp only
        split
        · rfl
        · rw [filter_retime (fun l => { l with ts := f l })
            (fun l => l.site == site && l.phone == some ph) (fun l => rfl) db.leads,
            List.length_map]

/-- For a visitor with no prior lead at all (and no other lead sharing the
submitted phone on the site), the accepted-lead branch stores no
repeat-submission reason. -/
theorem lead_accept_no_repeat_tags (db : DB) (site vid ip ua name : String)
    (phone : Option String) (email fa fi : String) (now : Nat)
    (hnoprior : db.leads.filter (fun l => l.site == site && l.vid == vid) = [])
    (hnophone : ∀ ph, phone = some ph → ph ≠ "" →
      db.leads.filter (fun l => l.site == site && l.phone == some ph) = []) :
    ∀ w ∈ (lead_accept db site vid ip ua name phone email fa fi now).visitors,
      w.site = site → w.vid = vid → ∀ t ∈ repeat_tags, t ∉ w.last_reasons := by
  intro w hw hws hwv
  have hf := lead_rescore_visitor_fields
    (lead_insert db site vid ip ua name phone email fa fi now)
    site vid name phone email now w hw hws hwv
  rw [hf.2.1]
  have hl2 : (lead_insert db site vid ip ua name phone email fa fi now).leads =
      db.leads ++ [⟨now, site, vid, ip, ua, name, phone, email, fa, fi⟩] :=
    lead_insert_leads db site vid ip ua name phone email fa fi now
  have hmine : (lead_insert db site vid ip ua name phone email fa fi now).leads.filter
      (fun l => l.site == site && l.vid == vid) =
      [⟨now, site, vid, ip, ua, name, phone, email, fa, fi⟩] := by
    rw [hl2, List.filter_append, hnoprior, List.nil_append]
    simp
  have h1 : (lead_history_stats (lead_insert db site vid ip ua name phone email fa fi now)
      site vid phone).vid_count < 2 := by
    unfold lead_history_stats
    dsimp only
    rw [hmine]
    simp
  have h2 : (lead_history_stats (lead_insert db site vid ip ua name phone email fa fi now)
      site vid phone).distinct_phones < 2 := by
    unfold lead_history_stats
    dsimp only
    rw [hmine]
    simp
  have h3 : (lead_history_stats (lead_insert db site vid ip ua name phone email fa fi now)
      site vid phone).distinct_names < 2 := by
    unfold lead_history_stats
    dsimp only
    rw [hmine]
    simp
  have h4 : (lead_history_stats (lead_insert db site vid ip ua name phone email fa fi now)
      site vid phone).phone_count < 2 := by
    unfold lead_history_stats
    dsimp only
    cases phone with
    | none => simp
    | some ph =>
        dsimp only
        split
        · simp
        · next hpe =>
            rw [hl2, List.filter_append, hnophone ph rfl hpe, List.nil_append]
            simp only [List.filter]
            split <;> simp
  exact score_suspicion_no_repeat site vid _ _ _ h1 h2 h3 h4

/-- C7 (amended): the history stats carry no rolling window — arbitrarily
retiming every stored lead changes nothing — and the guarantee that does
hold is: a visitor with zero prior submissions EVER (whose phone, if any,
appears in no other lead of the site) gets no repeat-submission reason on an
accepted lead.  Submissions older than 24 hours still count (see the
counterexample). -/
theorem C7_amended_no_window (db : DB) (p : CollectIn) (ip ua : String)
    (now : Nat) (site vid : String) (r : CollectResp) (f : Lead → Nat)
    (hsite : pyTake (pyStrip p.site) 200 = site)
    (hvid : pyTake (pyStrip p.vid) 200 = vid)
    (hk : p.kind = "lead") (hs : site ≠ "") (hv : vid ≠ "")
    (hok : (collect db p ip ua now).2 = .ok r)
    (hnoprior : db.leads.filter (fun l => l.site == site && l.vid == vid) = [])
    (hnophone : ∀ ph, norm_phone (p.lead.getD emptyLeadIn).phone = some ph → ph ≠ "" →
      db.leads.filter (fun l => l.site == site && l.phone == some ph) = []) :
    (∀ site' vid' phone',
      lead_history_stats { db with leads := db.leads.map (fun l => { l with ts := f l }) }
        site' vid' phone' = lead_history_stats db site' vid' phone') ∧
    ∀ w ∈ (collect db p ip ua now).1.visitors, w.site = site → w.vid = vid →
      ∀ t ∈ repeat_tags, t ∉ w.last_reasons := by
  refine ⟨fun site' vid' phone' => lead_history_stats_ignores_ts db f site' vid' phone', ?_⟩
  rw [collect_lead_eq db p ip ua now site vid hsite hvid hk hs hv] at hok ⊢
  by_cases hg : (collect_need_captcha
      (upsert_visitor db site vid ip ua p.path (p.interaction.getD []) now) site vid &&
      !(if collect_need_captcha
            (upsert_visitor db site vid ip ua p.path (p.interaction.getD []) now) site vid then
          captcha_check
            (upsert_visitor db site vid ip ua p.path (p.interaction.getD []) now).captchas
            (p.captcha.getD emptyCaptchaIn) site vid now
        else true)) = true
  · rw [if_pos hg] at hok
    simp at hok
  · rw [if_neg hg] at hok ⊢
    intro w hw hws hwv
    refine lead_accept_no_repeat_tags
      (upsert_visitor db site vid ip ua p.path (p.interaction.getD []) now)
      site vid ip ua _ _ _ _ _ now ?_ ?_ w hw hws hwv
    · rw [upsert_visitor_leads]
      exact hnoprior
    · intro ph hph hpe
      rw [upsert_visitor_leads]
      exact hnophone ph hph hpe

/-- Concrete database for C7: two leads from visitor "v", both far older
than the 24h window. -/
def dbC7 : DB :=
  { DB.empty with leads :=
      [⟨0, "s", "v", "", "", "", none, "", "", ""⟩,
       ⟨0, "s", "v", "", "", "", none, "", "", ""⟩] }

/-- Concrete request for C7: an empty lead from the same visitor. -/
def inpC7 : CollectIn :=
  { site := "s", vid := "v", path := none, ref := none, kind := "lead",
    interaction := none,
    lead := some ⟨none, none, none, none, none⟩,
    captcha := none }

/-- C7 (counterexample): the visitor has ZERO prior submissions inside the
24h rolling window (both stored leads are ~11 days old), yet the pipeline
adds the repeat-submission weight: the stored reasons contain
"repeat_leads_same_vid(>=2)" and the score includes its 60 points. -/
theorem C7_counterexample :
    (dbC7.leads.filter (fun l => in_window 1000000 l.ts)).length = 0 ∧
    (collect dbC7 inpC7 "ip" "ua" 1000000).2 = .ok ⟨true⟩ ∧
    ((get_visitor (collect dbC7 inpC7 "ip" "ua" 1000000).1 "s" "v").map
      (fun v => v.last_reasons.contains "repeat_leads_same_vid(>=2)")) = some true ∧
    ((get_visitor (collect dbC7 inpC7 "ip" "ua" 1000000).1 "s" "v").map
      (fun v => v.last_score)) = some 85 := by decide

/-- C7 (witness): the amended theorem applied to a first-ever submission on
an empty database — the stored visitor row carries no repeat tag. -/
theorem C7_witness :
    "repeat_leads_same_vid(>=2)" ∉
      (⟨"v", "s", 5, 5, "ip", "ua", none, [], 25, ["low_interaction"], false, false,
        false, 1, none, some ""⟩ : Visitor).last_reasons := by
  have h := C7_amended_no_window DB.empty inpC7 "ip" "ua" 5 "s" "v" ⟨true⟩ (fun _ => 0)
    (by decide) (by decide) rfl (by decide) (by decide) (by decide) rfl
    (fun ph hph _ => by
      rw [show norm_phone (inpC7.lead.getD emptyLeadIn).phone = none from rfl] at hph
      cases hph)
  exact h.2
    ⟨"v", "s", 5, 5, "ip", "ua", none, [], 25, ["low_interaction"], false, false,
      false, 1, none, some ""⟩
    (by decide) rfl rfl "repeat_leads_same_vid(>=2)" (by decide)

/-! ## Lemmas for /admin/block_phone -/

/-- Unfolding of /admin/block_phone on a phone that normalizes to a
non-empty string. -/
theorem admin_block_phone_eq (db : DB) (phoneIn : String) (reasonIn : Option String)
    (now : Nat) (ph : String)
    (hn : norm_phone (some phoneIn) = some ph) (hne : ph ≠ "") :
    admin_block_phone db phoneIn reasonIn now =
      ((((({ db with blocked_phones :=
              (db.blocked_phones.filter (fun e => e.phone ≠ ph)) ++
                [⟨ph, now, admin_reason reasonIn⟩] } : DB).leads.filter
            (fun l => l.phone == some ph)).map (fun l => l.vid)).dedup).foldl
          (block_vid_step ph (admin_reason reasonIn) now)
          { db with blocked_phones :=
              (db.blocked_phones.filter (fun e => e.phone ≠ ph)) ++
                [⟨ph, now, admin_reason reasonIn⟩] },
       .ok (ph,
         ((({ db with blocked_phones :=
                (db.blocked_phones.filter (fun e => e.phone ≠ ph)) ++
                  [⟨ph, now, admin_reason reasonIn⟩] } : DB).leads.filter
              (fun l => l.phone == some ph)).map (fun l => l.vid)).dedup)) := by
  unfold admin_block_phone
  rw [hn]
  dsimp only
  rw [if_neg hne]

/-- A derived `blocked_vids` row for `u` with the blocked phone survives the
rest of the propagation loop. -/
theorem fold_block_vid_bv_preserve (ph reason : String) (now : Nat) :
    ∀ (vids : List String) (d : DB) (u : String),
      (∃ e ∈ d.blocked_vids, e.vid = u ∧ e.phone = some ph) →
      ∃ e ∈ (vids.foldl (block_vid_step ph reason now) d).blocked_vids,
        e.vid = u ∧ e.phone = some ph := by
  intro vids
  induction vids with
  | nil => exact fun d u h => h
  | cons v tl ih =>
      intro d u h
      apply ih
      obtain ⟨e, he, hevid, heph⟩ := h
      by_cases hvu : u = v
      · subst hvu
        exact ⟨⟨u, now, reason, some ph⟩, by simp [block_vid_step], rfl, rfl⟩
      · refine ⟨e, ?_, hevid, heph⟩
        simp only [block_vid_step, List.mem_append]
        left
        refine List.mem_filter.mpr ⟨he, ?_⟩
        simp [hevid, hvu]

/-- The propagation loop creates a derived `blocked_vids` row for every vid
in its work list. -/
theorem fold_block_vid_bv_establish (ph reason : String) (now : Nat) :
    ∀ (vids : List String) (d : DB), ∀ u ∈ vids,
      ∃ e ∈ (vids.foldl (block_vid_step ph reason now) d).blocked_vids,
        e.vid = u ∧ e.phone = some ph := by
  intro vids
  induction vids with
  | nil => intro d u h; simp at h
  | cons v tl ih =>
      intro d u hu
      rcases List.mem_cons.mp hu with rfl | hu
      · exact fold_block_vid_bv_preserve ph reason now tl (block_vid_step ph reason now d u) u
          ⟨⟨u, now, reason, some ph⟩, by simp [block_vid_step], rfl, rfl⟩
      · exact ih (block_vid_step ph reason now d v) u hu

/-- One propagation step never clears a `blocked` visitor flag. -/
theorem block_vid_step_visitors_preserve (ph reason : String) (now : Nat) (d : DB)
    (v u : String) (h : ∀ w ∈ d.visitors, w.vid = u → w.blocked = true) :
    ∀ w ∈ (block_vid_step ph reason now d v).visitors, w.vid = u → w.blocked = true := by
  intro w hw hwu
  simp only [block_vid_step] at hw
  rcases List.mem_map.mp hw with ⟨x, hx, rfl⟩
  by_cases hc : (x.vid == v) = true
  · rw [if_pos hc]
  · rw [if_neg hc] at hwu ⊢
    exact h x hx hwu

/-- After its own step, every visitor row with the processed vid is blocked. -/
theorem block_vid_step_visitors_establish (ph reason : String) (now : Nat) (d : DB)
    (v : String) :
    ∀ w ∈ (block_vid_step ph reason now d v).visitors, w.vid = v → w.blocked = true := by
  intro w hw hwv
  simp only [block_vid_step] at hw
  rcases List.mem_map.mp hw with ⟨x, hx, rfl⟩
  by_cases hc : (x.vid == v) = true
  · rw [if_pos hc]
  · rw [if_neg hc] at hwv
    exact absurd (by simp [hwv]) hc

theorem fold_block_vid_visitors_preserve (ph reason : String) (now : Nat) :
    ∀ (vids : List String) (d : DB) (u : String),
      (∀ w ∈ d.visitors, w.vid = u → w.blocked = true) →
      ∀ w ∈ (vids.foldl (block_vid_step ph reason now) d).visitors,
        w.vid = u → w.blocked = true := by
  intro vids
  induction vids with
  | nil => exact fun d u h => h
  | cons v tl ih =>
      intro d u h
      exact ih _ u (block_vid_step_visitors_preserve ph reason now d v u h)

theorem fold_block_vid_visitors_establish (ph reason : String) (now : Nat) :
    ∀ (vids : List String) (d : DB), ∀ u ∈ vids,
      ∀ w ∈ (vids.foldl (block_vid_step ph reason now) d).visitors,
        w.vid = u → w.blocked = true := by
  intro vids
  induction vids with
  | nil => intro d u hu; simp at hu
  | cons v tl ih =>
      intro d u hu
      rcases List.mem_cons.mp hu with rfl | hu
      · exact fold_block_vid_visitors_preserve ph reason now tl _ u
          (block_vid_step_visitors_establish ph reason now d u)
      · exact ih (block_vid_step ph reason now d v) u hu

/-- C6: blocking a phone number propagates.  For every vid that ever
submitted a lead with that normalized phone, a derived `blocked_vids` row
referencing the phone is created, the cached `blocked` flag is set on every
visitor aggregate with that vid, and — whenever the visitor aggregate exists
for a (site, vid) pair — the next /risk query answers blocked=true. -/
theorem C6_phone_block_propagates (db : DB) (phoneIn : String)
    (reasonIn : Option String) (now : Nat) (ph : String) (vids : List String)
    (hok : (admin_block_phone db phoneIn reasonIn now).2 = .ok (ph, vids)) :
    ∀ l ∈ db.leads, l.phone = some ph →
      (∃ e ∈ (admin_block_phone db phoneIn reasonIn now).1.blocked_vids,
        e.vid = l.vid ∧ e.phone = some ph) ∧
      (∀ w ∈ (admin_block_phone db phoneIn reasonIn now).1.visitors,
        w.vid = l.vid → w.blocked = true) ∧
      (∀ site, pyTake (pyStrip site) 200 = site → site ≠ "" →
        pyTake (pyStrip l.vid) 200 = l.vid → l.vid ≠ "" →
        ∀ v, get_visitor (admin_block_phone db phoneIn reasonIn now).1 site l.vid = some v →
        ((risk (admin_block_phone db phoneIn reasonIn now).1 site l.vid).toOption.map
          (fun rr => rr.blocked)) = some true) := by
  cases hn : norm_phone (some phoneIn) with
  | none =>
      unfold admin_block_phone at hok
      rw [hn] at hok
      simp at hok
  | some ph0 =>
      by_cases hne : ph0 = ""
      · unfold admin_block_phone at hok
        rw [hn] at hok
        dsimp only at hok
        rw [if_pos hne] at hok
        simp at hok
      · rw [admin_block_phone_eq db phoneIn reasonIn now ph0 hn hne] at hok ⊢
        dsimp only at hok
        simp only [Except.ok.injEq, Prod.mk.injEq] at hok
        obtain ⟨h1, h2⟩ := hok
        subst h1
        subst h2
        intro l hl hlph
        have hlv : l.vid ∈
            ((({ db with blocked_phones :=
                  (db.blocked_phones.filter (fun e => e.phone ≠ ph0)) ++
                    [⟨ph0, now, admin_reason reasonIn⟩] } : DB).leads.filter
                (fun l => l.phone == some ph0)).map (fun l => l.vid)).dedup := by
          rw [List.mem_dedup]
          exact List.mem_map.mpr ⟨l, List.mem_filter.mpr ⟨hl, by simp [hlph]⟩, rfl⟩
        refine ⟨?_, ?_, ?_⟩
        · exact fold_block_vid_bv_establish ph0 (admin_reason reasonIn) now _ _ l.vid hlv
        · exact fold_block_vid_visitors_establish ph0 (admin_reason reasonIn) now _ _ l.vid hlv
        · intro site hst hsne hvt hvne v hgv
          obtain ⟨e, he, hev, _⟩ :=
            fold_block_vid_bv_establish ph0 (admin_reason reasonIn) now _ _ l.vid hlv
          have hany : ∀ L : List BlockedVid, e ∈ L →
              (L.any (fun e2 => e2.vid == l.vid)) = true :=
            fun L hL => List.any_eq_true.mpr ⟨e, hL, by simp [hev]⟩
          rw [risk_eq _ site l.vid site l.vid hst hvt hsne hvne, hgv]
          dsimp only
          unfold is_blocked
          rw [hany _ he]
          rfl

/-- Concrete database for the C6 witness: one lead and one visitor row for
vid "v" with phone +71234567890. -/
def dbC6 : DB :=
  { DB.empty with
    leads := [⟨0, "s", "v", "", "", "Bob", some "+71234567890", "", "", ""⟩],
    visitors := [⟨"v", "s", 0, 0, "", "", none, [], 0, [], false, false, false, 1,
      some "+71234567890", some "Bob"⟩] }

/-- C6 (witness): after blocking the phone, the risk query for the visitor
that had submitted it reports blocked=true. -/
theorem C6_witness :
    ((risk (admin_block_phone dbC6 "+71234567890" none 5).1 "s" "v").toOption.map
      (fun rr => rr.blocked)) = some true := by
  have h := C6_phone_block_propagates dbC6 "+71234567890" none 5 "+71234567890" ["v"]
    (by decide)
  exact (h ⟨0, "s", "v", "", "", "Bob", some "+71234567890", "", "", ""⟩ (by decide) rfl).2.2
    "s" (by decide) (by decide) (by decide) (by decide)
    ⟨"v", "s", 0, 0, "", "", none, [], 0, [], false, false, true, 1,
      some "+71234567890", some "Bob"⟩
    (by decide)

end Antibot
